import Mathlib

/-!
Shallow embedding of the evenly-spaced streamlines engine:
`src/src/streamlines/Vector.ts`, `src/src/streamlines/Cell.ts`,
`src/src/streamlines/LookupGrid.ts`, the `StreamlineIntegrator`
(`src/unnamed/part_013`) and the `Streamlines` scheduler plus
`normalizeBoundingBox` (`src/unnamed/part_014`).

JavaScript numbers are modelled as real numbers (`ℝ`); the source's
`Math.sqrt`, `Math.floor`, `Math.ceil`, `Math.max` become `Real.sqrt`,
`Int.floor`, `Int.ceil`, `max`.  JS `NaN` has no counterpart in `ℝ`, so the
`Number.isNaN` guards of the source are comments here.  The two callbacks
`onPointAdded` / `onStreamlineAdded` are modelled as absent (the engine's
default): the pause branch of `next()` is therefore never taken, and the
`onStreamlineAdded` invocations are recorded in an `emitted` trace field.
`ES Map` objects become insertion-ordered association lists.  Unbounded
`while` loops take an explicit fuel argument.
-/

namespace Streamline

open Classical

/-- The 2D point/displacement value type (`Vector.ts`). -/
structure Vec where
  x : ℝ
  y : ℝ

/-- Source `Vector.add` (`Vector.ts`). -/
def Vec.add (a b : Vec) : Vec := ⟨a.x + b.x, a.y + b.y⟩

/-- Source `Vector.mulScalar` (`Vector.ts`). -/
def Vec.mulScalar (a : Vec) (s : ℝ) : Vec := ⟨a.x * s, a.y * s⟩

/-- Source `Vector.distanceTo` (`Vector.ts`): `sqrt(dx*dx + dy*dy)` with
`dx = other.x - this.x`, `dy = other.y - this.y`. -/
noncomputable def Vec.distanceTo (a b : Vec) : ℝ :=
  Real.sqrt ((b.x - a.x) * (b.x - a.x) + (b.y - a.y) * (b.y - a.y))

/-- Bounding box `{left, top, width, height}` (`Config.d.ts`). -/
structure BoundingBox where
  left : ℝ
  top : ℝ
  width : ℝ
  height : ℝ

/-- A `Cell` (`Cell.ts`) is its list of occupied points (`children`; the
`null` initial state behaves exactly like the empty list). -/
abbrev Cell := List Vec

/-- Source `Cell.occupy` (`Cell.ts`): `children.push(point)`. -/
def Cell.occupy (c : Cell) (p : Vec) : Cell := c ++ [p]

/-- Source `Cell.isTaken` (`Cell.ts`): some stored point `p` satisfies
`checkCallback(sqrt(dx*dx + dy*dy), p)` with `dx = p.x - x`, `dy = p.y - y`. -/
def Cell.isTaken (c : Cell) (x y : ℝ) (check : ℝ → Vec → Prop) : Prop :=
  ∃ p ∈ c, check (Real.sqrt ((p.x - x) * (p.x - x) + (p.y - y) * (p.y - y))) p

/-- The `LookupGrid` state (`LookupGrid.ts`): the stored fields of the class.
`cells : Map<number, Map<number, Cell>>` is an association list keyed by
column index, each entry an association list keyed by row index. -/
structure LookupGrid where
  bbox : BoundingBox
  dSep : ℝ
  bboxSize : ℝ
  cellsCount : ℤ
  cells : List (ℤ × List (ℤ × Cell))

/-- Source `LookupGrid` constructor / `LookupGrid.create`:
`bboxSize = max(width, height)`, `cellsCount = ceil(bboxSize / dSep)`,
`cells = new Map()`. -/
noncomputable def LookupGrid.create (bbox : BoundingBox) (dSep : ℝ) : LookupGrid :=
  { bbox := bbox
    dSep := dSep
    bboxSize := max bbox.width bbox.height
    cellsCount := ⌈max bbox.width bbox.height / dSep⌉
    cells := [] }

/-- Source `LookupGrid.gridX`: `floor(cellsCount * (x - left) / bboxSize)`. -/
noncomputable def LookupGrid.gridX (g : LookupGrid) (x : ℝ) : ℤ :=
  ⌊(g.cellsCount : ℝ) * (x - g.bbox.left) / g.bboxSize⌋

/-- Source `LookupGrid.gridY`: `floor(cellsCount * (y - top) / bboxSize)`. -/
noncomputable def LookupGrid.gridY (g : LookupGrid) (y : ℝ) : ℤ :=
  ⌊(g.cellsCount : ℝ) * (y - g.bbox.top) / g.bboxSize⌋

/-- Source `LookupGrid.isOutside`: outside the box extents. -/
def LookupGrid.isOutside (g : LookupGrid) (x y : ℝ) : Prop :=
  x < g.bbox.left ∨ x > g.bbox.left + g.bbox.width ∨
  y < g.bbox.top ∨ y > g.bbox.top + g.bbox.height

/-- Reading `cells.get(cx)?.get(cy)` on the nested map. -/
def cellAt (g : LookupGrid) (cx cy : ℤ) : Option Cell :=
  match List.lookup cx g.cells with
  | none => none
  | some row => List.lookup cy row

/-- Source `LookupGrid.isTaken`: the 3×3 neighbour-cell scan around
`(gridX x, gridY y)`; indices outside `[0, cellsCount)` and missing
rows/cells are skipped; true iff some visited cell reports taken. -/
def LookupGrid.isTaken (g : LookupGrid) (x y : ℝ) (check : ℝ → Vec → Prop) : Prop :=
  ∃ col ∈ ([-1, 0, 1] : List ℤ), ∃ row ∈ ([-1, 0, 1] : List ℤ),
    0 ≤ g.gridX x + col ∧ g.gridX x + col < g.cellsCount ∧
    0 ≤ g.gridY y + row ∧ g.gridY y + row < g.cellsCount ∧
    ∃ c, cellAt g (g.gridX x + col) (g.gridY y + row) = some c ∧
      Cell.isTaken c x y check

/-- Source `LookupGrid.assertInBounds`: throws when either axis leaves
`[left, left + bboxSize]` × `[top, top + bboxSize]` (note: `bboxSize`,
not `width`/`height`). -/
noncomputable def LookupGrid.assertInBounds (g : LookupGrid) (x y : ℝ) :
    Except String Unit :=
  if g.bbox.left > x ∨ g.bbox.left + g.bboxSize < x then
    Except.error "x is out of bounds"
  else if g.bbox.top > y ∨ g.bbox.top + g.bboxSize < y then
    Except.error "y is out of bounds"
  else Except.ok ()

/-- Association-list update mirroring `Map.set` (replace the key's entry,
or append a new entry preserving insertion order). -/
def updateAssoc {α : Type} : List (ℤ × α) → ℤ → α → List (ℤ × α)
  | [], k, v => [(k, v)]
  | (k2, v2) :: rest, k, v =>
    if k = k2 then (k, v) :: rest else (k2, v2) :: updateAssoc rest k v

/-- Source `LookupGrid.occupyCoordinates`: `getCellByCoordinates(x, y).occupy(point)`
— asserts bounds, lazily creates the row and cell, appends the point.
The source's thrown `Error` is an `Except.error`. -/
noncomputable def LookupGrid.occupyCoordinates (g : LookupGrid) (p : Vec) :
    Except String LookupGrid :=
  match g.assertInBounds p.x p.y with
  | Except.error e => Except.error e
  | Except.ok _ =>
    let cx := g.gridX p.x
    let cy := g.gridY p.y
    let row := (List.lookup cx g.cells).getD []
    let cell := (List.lookup cy row).getD []
    Except.ok { g with cells := updateAssoc g.cells cx (updateAssoc row cy (cell.occupy p)) }

/-- Normalized run configuration, the fields of `this.options` after the
`Streamlines` constructor (`part_014`) has applied all defaults, as consumed
by `StreamlineIntegrator` (`part_013`).  `seedArray` is mutable shared state
(the integrator `shift`s it), so it lives in the scheduler state instead. -/
structure Config where
  vectorField : Vec → Option Vec
  boundingBox : BoundingBox
  dSep : ℝ
  dTest : ℝ
  timeStep : ℝ
  forwardOnly : Bool
  stepsPerIteration : ℕ
  async : Bool
  seed : Vec

/-- Source `StreamlineIntegrator.isSame` (`part_013`): `|a - b| < 1e-4`. -/
def isSame (a b : ℝ) : Prop := |a - b| < 1e-4

/-- Source `StreamlineIntegrator.checkDTest`: false when `isSame(d, dTest)`,
otherwise `d < dTest`. -/
def checkDTest (cfg : Config) (d : ℝ) : Prop := ¬ isSame d cfg.dTest ∧ d < cfg.dTest

/-- Source `StreamlineIntegrator.checkDSep`: false when `isSame(d, dSep)`,
otherwise `d < dSep`. -/
def checkDSep (cfg : Config) (d : ℝ) : Prop := ¬ isSame d cfg.dSep ∧ d < cfg.dSep

/-- Source `StreamlineIntegrator.timeStepCheck`: `d < timeStep * 0.9` (no
`isSame` guard in the source). -/
def timeStepCheck (cfg : Config) (d : ℝ) : Prop := d < cfg.timeStep * 0.9

/-- Source `StreamlineIntegrator.normalizedVectorField`: undefined field value or
zero squared length signal a singularity; otherwise divide by the length.
(The source's `Number.isNaN` guard has no `ℝ` counterpart.) -/
noncomputable def normalizedVectorField (cfg : Config) (p : Vec) : Option Vec :=
  match cfg.vectorField p with
  | none => none
  | some vec =>
    if vec.x * vec.x + vec.y * vec.y = 0 then none
    else some ⟨vec.x / Real.sqrt (vec.x * vec.x + vec.y * vec.y),
               vec.y / Real.sqrt (vec.x * vec.x + vec.y * vec.y)⟩

/-- Modelled from the spec: the repository imports `./rk4`, whose file is not
under `src/`; section 4.1 of the spec specifies it.  Classic stages
`k1 = f(p)`, `k2 = f(p + h/2*k1)`, `k3 = f(p + h/2*k2)`, `k4 = f(p + h*k3)`;
any undefined stage fails the whole step; the result is the displacement
`h/6 * (k1 + 2*k2 + 2*k3 + k4)`. -/
noncomputable def rk4 (pos : Vec) (h : ℝ) (f : Vec → Option Vec) : Option Vec :=
  match f pos with
  | none => none
  | some k1 =>
    match f (pos.add (k1.mulScalar (h / 2))) with
    | none => none
    | some k2 =>
      match f (pos.add (k2.mulScalar (h / 2))) with
      | none => none
      | some k3 =>
        match f (pos.add (k3.mulScalar h)) with
        | none => none
        | some k4 =>
          some (((k1.add (k2.mulScalar 2)).add ((k3.mulScalar 2).add k4)).mulScalar (h / 6))

/-- The integrator's finite state (`FORWARD = 1`, `BACKWARD = 2`, `DONE = 3`). -/
inductive IState where
  | forward
  | backward
  | done
deriving DecidableEq

/-- Mutable state of one `StreamlineIntegrator` (`part_013`).  The transient
`candidate` field of the class is write-only outside `growByVelocity` and is
not part of the model. -/
structure Integ where
  start : Vec
  points : List Vec
  pos : Vec
  state : IState
  lastCheckedSeed : ℤ
  ownGrid : LookupGrid

/-- Source `StreamlineIntegrator` constructor / `create`: one seed point, forward
state, `lastCheckedSeed = -1`, private grid of cell size `timeStep * 0.9`.
The seed is *not* occupied in the private grid. -/
noncomputable def Integ.create (start : Vec) (cfg : Config) : Integ :=
  { start := start
    points := [start]
    pos := start
    state := IState.forward
    lastCheckedSeed := -1
    ownGrid := LookupGrid.create cfg.boundingBox (cfg.timeStep * 0.9) }

/-- Source `StreamlineIntegrator.growByVelocity`: reject an out-of-box candidate,
then a shared-grid `checkDTest` hit, then a private-grid `timeStepCheck`
hit; otherwise accept `pos + velocity`. -/
noncomputable def growByVelocity (cfg : Config) (grid own : LookupGrid)
    (pos velocity : Vec) : Option Vec :=
  let candidate := pos.add velocity
  if grid.isOutside candidate.x candidate.y then none
  else if grid.isTaken candidate.x candidate.y (fun d _ => checkDTest cfg d) then none
  else if own.isTaken candidate.x candidate.y (fun d _ => timeStepCheck cfg d) then none
  else some candidate

/-- Source `StreamlineIntegrator.growForward`. -/
noncomputable def growForward (cfg : Config) (grid : LookupGrid) (it : Integ) : Option Vec :=
  match rk4 it.pos cfg.timeStep (normalizedVectorField cfg) with
  | none => none
  | some velocity => growByVelocity cfg grid it.ownGrid it.pos velocity

/-- Source `StreamlineIntegrator.growBackward`: the rk4 displacement negated. -/
noncomputable def growBackward (cfg : Config) (grid : LookupGrid) (it : Integ) : Option Vec :=
  match rk4 it.pos cfg.timeStep (normalizedVectorField cfg) with
  | none => none
  | some velocity => growByVelocity cfg grid it.ownGrid it.pos (velocity.mulScalar (-1))

/-- Source `points.forEach(p => occupyPointInGrid(p))`: commit every point of a
finished streamline into the shared grid, left to right. -/
noncomputable def commitAll (grid : LookupGrid) : List Vec → Except String LookupGrid
  | [] => Except.ok grid
  | p :: rest =>
    match grid.occupyCoordinates p with
    | Except.error e => Except.error e
    | Except.ok g2 => commitAll g2 rest

/-- One iteration of the `while (true)` body of `StreamlineIntegrator.next()`:
the forward block, then the backward block, then the completion block (the
source's three sequential `if`s).  The `Bool` is true when the integrator
completed (committing its points to the shared grid).  With no
`onPointAdded` callback configured the pause branch is never taken. -/
noncomputable def nextBody (cfg : Config) (grid : LookupGrid) (it : Integ) :
    Except String (Integ × LookupGrid × Bool) := do
  let it1 ←
    if it.state = IState.forward then
      match growForward cfg grid it with
      | some point =>
        match it.ownGrid.occupyCoordinates point with
        | Except.error e => Except.error e
        | Except.ok og =>
          Except.ok { it with points := it.points ++ [point], pos := point, ownGrid := og }
      | none =>
        if cfg.forwardOnly then Except.ok { it with state := IState.done }
        else Except.ok { it with pos := it.start, state := IState.backward }
    else Except.ok it
  let it2 ←
    if it1.state = IState.backward then
      match growBackward cfg grid it1 with
      | some point =>
        match it1.ownGrid.occupyCoordinates point with
        | Except.error e => Except.error e
        | Except.ok og =>
          Except.ok { it1 with points := point :: it1.points, pos := point, ownGrid := og }
      | none => Except.ok { it1 with state := IState.done }
    else Except.ok it1
  if it2.state = IState.done then
    match commitAll grid it2.points with
    | Except.error e => Except.error e
    | Except.ok g2 => Except.ok (it2, g2, true)
  else Except.ok (it2, grid, false)

/-- The `while (true)` loop of `next()`, with fuel.  Exhausted fuel returns
`false` exactly like the pause exit of the source — the caller re-enters. -/
noncomputable def nextLoop (cfg : Config) : ℕ → LookupGrid → Integ →
    Except String (Integ × LookupGrid × Bool)
  | 0, grid, it => Except.ok (it, grid, false)
  | Nat.succ n, grid, it =>
    match nextBody cfg grid it with
    | Except.error e => Except.error e
    | Except.ok (it2, g2, true) => Except.ok (it2, g2, true)
    | Except.ok (it2, g2, false) => nextLoop cfg n g2 it2

/-- The scan loop of `StreamlineIntegrator.getNextValidSeed`, recursing over
the still-unchecked suffix of `points` (the loop `while (lastCheckedSeed <
points.length - 1)` reading `points[++lastCheckedSeed]`).  Arguments beyond
the suffix: the current `lastCheckedSeed` value and the shared `seedArray`.
Returns the found candidate (if any), the final `lastCheckedSeed`, and the
remaining `seedArray`.  A point with a singular field is skipped; otherwise
the first orthogonal candidate `p + dSep*(-v.y, v.x)` — replaced by the
`seedArray` head when that is non-empty (`shift`) — is tested; on success
`lastCheckedSeed` is decremented by one and the candidate returned; else the
second orthogonal candidate `p + dSep*(v.y, -v.x)` is tested. -/
noncomputable def seedScan (cfg : Config) (grid : LookupGrid) :
    List Vec → ℤ → List Vec → Option Vec × ℤ × List Vec
  | [], lcs, sa => (none, lcs, sa)
  | p :: rest, lcs0, sa =>
    let lcs := lcs0 + 1
    match normalizedVectorField cfg p with
    | none => seedScan cfg grid rest lcs sa
    | some v =>
      let cGeo : Vec := ⟨p.x - v.y * cfg.dSep, p.y + v.x * cfg.dSep⟩
      let c := match sa with
        | [] => cGeo
        | s :: _ => s
      let sa2 := match sa with
        | [] => ([] : List Vec)
        | _ :: t => t
      if ¬ grid.isOutside c.x c.y ∧
          ¬ grid.isTaken c.x c.y (fun d _ => checkDSep cfg d) then
        (some c, lcs - 1, sa2)
      else
        let o : Vec := ⟨p.x + v.y * cfg.dSep, p.y - v.x * cfg.dSep⟩
        if ¬ grid.isOutside o.x o.y ∧
            ¬ grid.isTaken o.x o.y (fun d _ => checkDSep cfg d) then
          (some o, lcs, sa2)
        else seedScan cfg grid rest lcs sa2

/-- Source `StreamlineIntegrator.getNextValidSeed`: run the scan from index
`lastCheckedSeed + 1`, producing the candidate, the integrator with its
updated `lastCheckedSeed`, and the remaining `seedArray`. -/
noncomputable def getNextValidSeed (cfg : Config) (grid : LookupGrid)
    (it : Integ) (sa : List Vec) : Option Vec × Integ × List Vec :=
  let r := seedScan cfg grid (it.points.drop (it.lastCheckedSeed + 1).toNat)
    it.lastCheckedSeed sa
  (r.1, { it with lastCheckedSeed := r.2.1 }, r.2.2)

/-- Spec-side observer for the claim `lastCheckedSeed` is "never rescanned":
the list of indices `i` for which `points[i]` is read during one
`getNextValidSeed` call, mirroring `seedScan` step for step. -/
noncomputable def examinedScan (cfg : Config) (grid : LookupGrid) :
    List Vec → ℤ → List Vec → List ℤ
  | [], _, _ => []
  | p :: rest, lcs0, sa =>
    let lcs := lcs0 + 1
    match normalizedVectorField cfg p with
    | none => lcs :: examinedScan cfg grid rest lcs sa
    | some v =>
      let cGeo : Vec := ⟨p.x - v.y * cfg.dSep, p.y + v.x * cfg.dSep⟩
      let c := match sa with
        | [] => cGeo
        | s :: _ => s
      let sa2 := match sa with
        | [] => ([] : List Vec)
        | _ :: t => t
      if ¬ grid.isOutside c.x c.y ∧
          ¬ grid.isTaken c.x c.y (fun d _ => checkDSep cfg d) then
        [lcs]
      else
        let o : Vec := ⟨p.x + v.y * cfg.dSep, p.y - v.x * cfg.dSep⟩
        if ¬ grid.isOutside o.x o.y ∧
            ¬ grid.isTaken o.x o.y (fun d _ => checkDSep cfg d) then
          [lcs]
        else lcs :: examinedScan cfg grid rest lcs sa2

/-- Indices examined by one `getNextValidSeed` call on integrator `it`. -/
noncomputable def examinedIndices (cfg : Config) (grid : LookupGrid)
    (it : Integ) (sa : List Vec) : List ℤ :=
  examinedScan cfg grid (it.points.drop (it.lastCheckedSeed + 1).toNat)
    it.lastCheckedSeed sa

/-- The scheduler's finite state (`STATE_INIT` … `STATE_SEED_STREAMLINE`). -/
inductive SState where
  | init
  | streamline
  | processQueue
  | seedStreamline
  | done
deriving DecidableEq

/-- Mutable state of the `Streamlines` scheduler (`part_014`): overall state,
the shared grid, the active integrator, the FIFO queue of finished
integrators, the trace of `onStreamlineAdded` invocations, and the shared
mutable `seedArray`. -/
structure SchedState where
  state : SState
  grid : LookupGrid
  current : Integ
  queue : List Integ
  emitted : List (List Vec)
  seedArray : List Vec

/-- Source `Streamlines.addStreamLineToQueue`: only streamlines longer than one
point enter the finished queue and fire `onStreamlineAdded`. -/
def addStreamLineToQueue (s : SchedState) : SchedState :=
  if 1 < s.current.points.length then
    { s with queue := s.queue ++ [s.current], emitted := s.emitted ++ [s.current.points] }
  else s

/-- Source `Streamlines.initProcessing`: drive the initial integrator; on
completion enqueue it and move to `PROCESS_QUEUE`. -/
noncomputable def initProcessing (cfg : Config) (nf : ℕ) (s : SchedState) :
    Except String SchedState :=
  match nextLoop cfg nf s.grid s.current with
  | Except.error e => Except.error e
  | Except.ok (it2, g2, completed) =>
    let s2 := { s with current := it2, grid := g2 }
    Except.ok (if completed then
      { addStreamLineToQueue s2 with state := SState.processQueue }
    else s2)

/-- Source `Streamlines.continueStreamline`: drive the current integrator; on
completion enqueue it and move to `SEED_STREAMLINE`. -/
noncomputable def continueStreamline (cfg : Config) (nf : ℕ) (s : SchedState) :
    Except String SchedState :=
  match nextLoop cfg nf s.grid s.current with
  | Except.error e => Except.error e
  | Except.ok (it2, g2, completed) =>
    let s2 := { s with current := it2, grid := g2 }
    Except.ok (if completed then
      { addStreamLineToQueue s2 with state := SState.seedStreamline }
    else s2)

/-- Source `Streamlines.processQueue`: empty queue means `DONE`, otherwise seed. -/
def processQueue (s : SchedState) : SchedState :=
  if s.queue.isEmpty then { s with state := SState.done }
  else { s with state := SState.seedStreamline }

/-- Source `Streamlines.seedStreamline`: ask the queue head for a seed; found ⇒
spawn a fresh integrator there and go to `STREAMLINE`; none ⇒ pop the head
and go back to `PROCESS_QUEUE`.  (The source reads
`finishedStreamlineIntegrators[0]` unconditionally; an empty queue — never
reached by the state machine — would be a runtime `TypeError`.) -/
noncomputable def seedStreamlineStep (cfg : Config) (s : SchedState) :
    Except String SchedState :=
  match s.queue with
  | [] => Except.error "seedStreamline on empty queue"
  | head :: rest =>
    match getNextValidSeed cfg s.grid head s.seedArray with
    | (some candidate, head2, sa2) =>
      Except.ok { s with queue := head2 :: rest, seedArray := sa2,
                         current := Integ.create candidate cfg,
                         state := SState.streamline }
    | (none, _, sa2) =>
      Except.ok { s with queue := rest, seedArray := sa2,
                         state := SState.processQueue }

/-- One iteration of the `for` loop in `Streamlines.nextStep`: the four
sequential state `if`s (so a single iteration may perform several handler
transitions, exactly as in the source). -/
noncomputable def schedBody (cfg : Config) (nf : ℕ) (s : SchedState) :
    Except String SchedState :=
  bind (if s.state = SState.init then initProcessing cfg nf s else pure s)
    (fun s1 =>
      bind (if s1.state = SState.streamline then continueStreamline cfg nf s1
          else pure s1)
        (fun s2 =>
          let s3 := if s2.state = SState.processQueue then processQueue s2
            else s2
          if s3.state = SState.seedStreamline then seedStreamlineStep cfg s3
          else pure s3))

/-- The full state evolution of a run: iterate `schedBody` until `DONE`
(fuelled).  This is what the chained `nextStep` turns of the source compute
in total; the per-turn bookkeeping (`stepsPerIteration`, the wall-clock
budget, the `setTimeout` re-arm) only splits the very same iteration
sequence into turns. -/
noncomputable def drive (cfg : Config) (nf : ℕ) : ℕ → SchedState →
    Except String SchedState
  | 0, s => Except.ok s
  | Nat.succ n, s =>
    if s.state = SState.done then Except.ok s
    else
      match schedBody cfg nf s with
      | Except.error e => Except.error e
      | Except.ok s2 => drive cfg nf n s2

/-- Result of one `Streamlines.nextStep` call.  `resolveCrash` models the
source's `this.resolve!!(this.options)` when `resolve` was never assigned
(it is only assigned by the Promise executor in async mode): calling
`undefined` raises a `TypeError`. -/
inductive NextStepResult where
  | resolveCrash
  | resolved (s : SchedState)
  | scheduled (s : SchedState)
  | failed (e : String)
deriving Inhabited

/-- The `for (i = 0; i < stepsPerIteration; ++i)` loop of `nextStep`: each
iteration runs the four handler `if`s and then, if the state is `DONE`,
invokes `resolve`.  Falling out of the loop re-arms `setTimeout`
(`scheduled`).  The wall-clock budget break is not modelled (the model's
clock never advances, so `performance.now() - start` stays 0 and, for the
default positive budget, the break is never taken). -/
noncomputable def nextStepLoop (cfg : Config) (nf : ℕ) (resolveAssigned : Bool) :
    ℕ → SchedState → NextStepResult
  | 0, s => NextStepResult.scheduled s
  | Nat.succ n, s =>
    match schedBody cfg nf s with
    | Except.error e => NextStepResult.failed e
    | Except.ok s2 =>
      if s2.state = SState.done then
        if resolveAssigned then NextStepResult.resolved s2 else NextStepResult.resolveCrash
      else nextStepLoop cfg nf resolveAssigned n s2

/-- Source `Streamlines.nextStep` (one turn). -/
noncomputable def nextStep (cfg : Config) (nf : ℕ) (resolveAssigned : Bool)
    (s : SchedState) : NextStepResult :=
  nextStepLoop cfg nf resolveAssigned cfg.stepsPerIteration s

/-- What `Streamlines.run()` returns. -/
inductive RunResult where
  | promise (r : NextStepResult)
  | syncReturn (r : NextStepResult)

/-- Source `Streamlines.run()`: with `async` set, schedule `nextStep` on a timer and
hand out a Promise whose executor assigns `resolve` (the executor runs before
the timer fires, so the deferred turn sees `resolve` assigned); otherwise call
`nextStep()` directly — in that branch `resolve` is never assigned. -/
noncomputable def run (cfg : Config) (nf : ℕ) (s : SchedState) : RunResult :=
  if cfg.async then RunResult.promise (nextStep cfg nf true s)
  else RunResult.syncReturn (nextStep cfg nf false s)

/-- The raw bounding-box argument as the constructor receives it: each field
may be absent.  (`assertNumber` rejects non-numbers and `NaN`; absence models
both, `NaN` itself having no `ℝ` counterpart.) -/
structure ProtoBBox where
  left : Option ℝ
  top : Option ℝ
  width : Option ℝ
  height : Option ℝ
  size : Option ℝ

/-- The raw `protoOptions` object handed to the `Streamlines` constructor.
`seed` may be absent, a single point, or an array; `randomPair` supplies the
two `Math.random()` draws used when `seed` is absent. -/
structure ProtoConfig where
  boundingBox : Option ProtoBBox
  vectorField : Vec → Option Vec
  forwardOnly : Bool
  seed : Option (Vec ⊕ List Vec)
  dSep : Option ℝ
  dTest : Option ℝ
  timeStep : Option ℝ
  stepsPerIteration : Option ℕ
  async : Bool
  randomPair : ℝ × ℝ

/-- Source `assertNumber` (`part_014`): a missing (or `NaN`) field throws `msg`. -/
def assertNumber (x : Option ℝ) (msg : String) : Except String ℝ :=
  match x with
  | none => Except.error msg
  | some v => Except.ok v

/-- Source `normalizeBoundingBox` (`part_014`): assert `left` and `top`; if `size`
is a number copy it to `width` and `height`; assert both; reject non-positive
extents. -/
noncomputable def normalizeBoundingBox (b : ProtoBBox) : Except String BoundingBox := do
  let msg := "Bounding box \x7bleft, top, width, height\x7d is required"
  let left ← assertNumber b.left msg
  let top ← assertNumber b.top msg
  let wh := match b.size with
    | some sz => (some sz, some sz)
    | none => (b.width, b.height)
  let width ← assertNumber wh.1 msg
  let height ← assertNumber wh.2 msg
  if width ≤ 0 ∨ height ≤ 0 then Except.error "Bounding box cannot be empty"
  else Except.ok ⟨left, top, width, height⟩

/-- Result of the `Streamlines` constructor: the normalized options, the
initial scheduler state, and whether the "no bounding box" console warning
was emitted. -/
structure BuildResult where
  cfg : Config
  s0 : SchedState
  warnedDefaultBox : Bool

/-- The `Streamlines` constructor (`part_014`): a missing bounding box is
replaced — with a console warning — by the default `{-5, -5, 10, 10}` box;
the box is normalized; the seed defaults to a random in-box point, a seed
array is `shift`ed for the initial seed with the remainder kept as the
override queue (an empty seed array crashes the source reading `.x` of
`undefined`); `dSep`, `dTest`, `timeStep`, `stepsPerIteration` get their
defaults unless positive values are supplied; the shared grid has cell size
`dSep`; the initial integrator starts at the seed in state `INIT`. -/
noncomputable def mkStreamlines (proto : ProtoConfig) : Except String BuildResult := do
  let boxed := match proto.boundingBox with
    | none => (({ left := some (-5), top := some (-5), width := some 10,
                  height := some 10, size := none } : ProtoBBox), true)
    | some b => (b, false)
  let bbox ← normalizeBoundingBox boxed.1
  let seeded ← match proto.seed with
    | none => Except.ok ((⟨proto.randomPair.1 * bbox.width + bbox.left,
                          proto.randomPair.2 * bbox.height + bbox.top⟩ : Vec),
                         ([] : List Vec))
    | some (Sum.inl v) => Except.ok ((⟨v.x, v.y⟩ : Vec), ([] : List Vec))
    | some (Sum.inr []) => Except.error "seed array is empty"
    | some (Sum.inr (v :: rest)) => Except.ok ((⟨v.x, v.y⟩ : Vec), rest)
  let dSep := match proto.dSep with
    | some d => if d > 0 then d else 1 / max bbox.width bbox.height
    | none => 1 / max bbox.width bbox.height
  let dTest := match proto.dTest with
    | some d => if d > 0 then d else dSep * 0.5
    | none => dSep * 0.5
  let grid := LookupGrid.create bbox dSep
  let timeStep := match proto.timeStep with
    | some t => if t > 0 then t else 0.01
    | none => 0.01
  let spi := match proto.stepsPerIteration with
    | some n => if 0 < n then n else 10
    | none => 10
  let cfg : Config :=
    { vectorField := proto.vectorField
      boundingBox := bbox
      dSep := dSep
      dTest := dTest
      timeStep := timeStep
      forwardOnly := proto.forwardOnly
      stepsPerIteration := spi
      async := proto.async
      seed := seeded.1 }
  Except.ok
    { cfg := cfg
      s0 := { state := SState.init
              grid := grid
              current := Integ.create seeded.1 cfg
              queue := []
              emitted := []
              seedArray := seeded.2 }
      warnedDefaultBox := boxed.2 }

/-- Projection: the normalized bounding box of a successful construction. -/
def resultBox : Except String BuildResult → Option BoundingBox
  | Except.ok r => some r.cfg.boundingBox
  | Except.error _ => none

/-- Projection: the warning flag of a successful construction. -/
def resultWarned : Except String BuildResult → Option Bool
  | Except.ok r => some r.warnedDefaultBox
  | Except.error _ => none

/-- Projection: the initial integrator's point list of a successful
construction. -/
def resultSeedPoints : Except String BuildResult → Option (List Vec)
  | Except.ok r => some r.s0.current.points
  | Except.error _ => none

/-- Projection: the shared grid of a successful construction. -/
def resultSharedGrid : Except String BuildResult → Option LookupGrid
  | Except.ok r => some r.s0.grid
  | Except.error _ => none

/-! Claim C4 — the fuzzy-equality guard on the distance predicates. -/

/-- A configuration with `timeStep = 1` exercising the predicates. -/
noncomputable def cfgC4 : Config :=
  { vectorField := fun _ => none
    boundingBox := ⟨0, 0, 10, 10⟩
    dSep := 1
    dTest := 0.5
    timeStep := 1
    forwardOnly := true
    stepsPerIteration := 10
    async := false
    seed := ⟨5, 5⟩ }

/-- A freshly created grid over the `{0, 0, 10, 10}` box with spacing 1. -/
noncomputable def gridC10 : LookupGrid := LookupGrid.create ⟨0, 0, 10, 10⟩ 1

/-! Reduction lemmas for the `Except` monad used by the constructor and the
scheduler step functions. -/

@[simp] lemma exceptBindOk {ε α β : Type} (a : α) (f : α → Except ε β) :
    (Except.ok a >>= f : Except ε β) = f a := rfl

@[simp] lemma exceptBindErr {ε α β : Type} (e : ε) (f : α → Except ε β) :
    ((Except.error e : Except ε α) >>= f) = Except.error e := rfl

@[simp] lemma exceptPureEq {ε α : Type} (a : α) :
    (pure a : Except ε α) = Except.ok a := rfl

/-! Claim C3 — construction with a missing bounding box. -/

/-- A configuration with no bounding box (and no `size` shorthand). -/
noncomputable def protoC3 : ProtoConfig :=
  { boundingBox := none
    vectorField := fun _ => none
    forwardOnly := false
    seed := some (Sum.inl ⟨0, 0⟩)
    dSep := some 1
    dTest := some 0.5
    timeStep := some 0.1
    stepsPerIteration := some 10
    async := false
    randomPair := (0, 0) }

/-- A raw bounding box with a negative width. -/
def bboxProtoBad : ProtoBBox :=
  { left := some 0, top := some 0, width := some (-3), height := some 10,
    size := none }

/-- A configuration whose bounding box is present but has negative width. -/
noncomputable def protoC3bad : ProtoConfig :=
  { protoC3 with boundingBox := some bboxProtoBad }

/-- The C7 grid: box `{0, 0, 10, 10}`, spacing 3, hence `cellsCount = 4` and
cell width `2.5 < 3`; one stored point `(5.3, 5)` (sitting in cell `(2, 2)`,
where `occupyCoordinates` puts it). -/
def gridC7 : LookupGrid :=
  { bbox := ⟨0, 0, 10, 10⟩
    dSep := 3
    bboxSize := 10
    cellsCount := 4
    cells := [(2, [(2, [⟨5.3, 5⟩])])] }

/-- Configuration for the C5 scenario: `dSep = 1`, vector field live only at
the single point `(5, 5)`. -/
noncomputable def cfgC5 : Config :=
  { vectorField := fun p => if p.x = 5 ∧ p.y = 5 then some ⟨1, 0⟩ else none
    boundingBox := ⟨0, 0, 10, 10⟩
    dSep := 1
    dTest := 0.5
    timeStep := 0.1
    forwardOnly := true
    stepsPerIteration := 10
    async := false
    seed := ⟨5, 5⟩ }

/-- Shared grid for the C5 counterexample: one committed point `(2, 2.5)`
in cell `(2, 2)`, blocking the queued seed `(2, 2)`. -/
def gridC5 : LookupGrid :=
  { bbox := ⟨0, 0, 10, 10⟩, dSep := 1, bboxSize := 10, cellsCount := 10,
    cells := [(2, [(2, [⟨2, 2.5⟩])])] }

/-- An empty shared grid over the same box. -/
def gridC5e : LookupGrid :=
  { bbox := ⟨0, 0, 10, 10⟩, dSep := 1, bboxSize := 10, cellsCount := 10,
    cells := [] }

/-- The one-point integrator at `(5, 5)` used by the C5 scenario. -/
noncomputable def itC5 : Integ := Integ.create ⟨5, 5⟩ cfgC5

/-- Shared grid after the streamline spawned from call A's candidate
`(5, 6)` has finished and committed its seed point. -/
def gridC6b : LookupGrid :=
  { bbox := ⟨0, 0, 10, 10⟩, dSep := 1, bboxSize := 10, cellsCount := 10,
    cells := [(5, [(6, [⟨5, 6⟩])])] }

/-- Sync configuration whose vector field is singular everywhere. -/
noncomputable def cfgC2 : Config :=
  { vectorField := fun _ => none
    boundingBox := ⟨0, 0, 10, 10⟩
    dSep := 1
    dTest := 0.5
    timeStep := 0.01
    forwardOnly := false
    stepsPerIteration := 10
    async := false
    seed := ⟨5, 5⟩ }

/-- The shared grid of the C2 run, freshly created. -/
def gridC2 : LookupGrid :=
  { bbox := ⟨0, 0, 10, 10⟩, dSep := 1, bboxSize := 10, cellsCount := 10,
    cells := [] }

/-- The initial integrator of the C2 run. -/
noncomputable def itC2 : Integ := Integ.create ⟨5, 5⟩ cfgC2

/-- The same integrator after both growth directions fail immediately. -/
noncomputable def itC2done : Integ :=
  { start := ⟨5, 5⟩
    points := [⟨5, 5⟩]
    pos := ⟨5, 5⟩
    state := IState.done
    lastCheckedSeed := -1
    ownGrid := LookupGrid.create ⟨0, 0, 10, 10⟩ (cfgC2.timeStep * 0.9) }

/-- Initial scheduler state of the C2 run. -/
noncomputable def s0C2 : SchedState :=
  { state := SState.init, grid := gridC2, current := itC2, queue := [],
    emitted := [], seedArray := [] }

/-- The shared grid after the seed-only streamline commits its seed. -/
def gridC2b : LookupGrid :=
  { bbox := ⟨0, 0, 10, 10⟩, dSep := 1, bboxSize := 10, cellsCount := 10,
    cells := [(5, [(5, [⟨5, 5⟩])])] }

/-- The C2 scheduler state after one loop iteration: `DONE`. -/
noncomputable def s1C2 : SchedState :=
  { state := SState.done, grid := gridC2b, current := itC2done, queue := [],
    emitted := [], seedArray := [] }

/-! Claim C1 — the cross-streamline separation invariant.  The concrete run
below (dSep = 2.4, explicit dTest = 4.5 > dSep, unit field on the rows
`y = 5` and `y = 9` for `x ≤ 5`, singular elsewhere) completes, emits two
streamlines, and leaves the points `(5,5)` and `(5,9)` at distance
`4 < dTest - 1e-4`: the 3×3 scan of the shared grid (cell width 2) never
sees the other streamline two cell-rows away. -/

/-- Vector field of the C1 run: unit x-direction on the rows `y = 5` and
`y = 9` up to `x = 5`, singular elsewhere. -/
noncomputable def fieldC1 : Vec → Option Vec :=
  fun p => if (p.y = 5 ∨ p.y = 9) ∧ p.x ≤ 5 then some ⟨1, 0⟩ else none

/-- Normalized options of the C1 run. -/
noncomputable def cfgC1 : Config :=
  { vectorField := fieldC1
    boundingBox := ⟨0, 4.8, 10, 4.6⟩
    dSep := 2.4
    dTest := 4.5
    timeStep := 4
    forwardOnly := true
    stepsPerIteration := 10
    async := true
    seed := ⟨1, 5⟩ }

/-- Raw constructor options producing `cfgC1`. -/
noncomputable def protoC1 : ProtoConfig :=
  { boundingBox := some
      { left := some 0, top := some 4.8, width := some 10, height := some 4.6,
        size := none }
    vectorField := fieldC1
    forwardOnly := true
    seed := some (Sum.inr [⟨1, 5⟩, ⟨1, 9⟩])
    dSep := some 2.4
    dTest := some 4.5
    timeStep := some 4
    stepsPerIteration := some 10
    async := true
    randomPair := (0, 0) }

/-- The shared grid of the C1 run (`cellsCount = ceil(10 / 2.4) = 5`, cell
width 2), parametrized by its cell contents. -/
def sharedC1 (cells : List (ℤ × List (ℤ × Cell))) : LookupGrid :=
  { bbox := ⟨0, 4.8, 10, 4.6⟩, dSep := 2.4, bboxSize := 10, cellsCount := 5,
    cells := cells }

/-- A private integrator grid of the C1 run (cell size `timeStep * 0.9 =
3.6`, `cellsCount = 3`), parametrized by its cell contents. -/
noncomputable def ownGC1 (cells : List (ℤ × List (ℤ × Cell))) : LookupGrid :=
  { bbox := ⟨0, 4.8, 10, 4.6⟩, dSep := cfgC1.timeStep * 0.9, bboxSize := 10,
    cellsCount := 3, cells := cells }

/-- Integrator states of the C1 run. -/
noncomputable def integC1 (start : Vec) (points : List Vec) (pos : Vec)
    (st : IState) (lcs : ℤ) (own : List (ℤ × List (ℤ × Cell))) : Integ :=
  { start := start, points := points, pos := pos, state := st,
    lastCheckedSeed := lcs, ownGrid := ownGC1 own }

/-- Private-grid contents of the first (resp. second) C1 integrator. -/
def own1C1 : List (ℤ × List (ℤ × Cell)) := [(1, [(0, [⟨5, 5⟩])])]

def own2C1 : List (ℤ × List (ℤ × Cell)) := [(1, [(1, [⟨5, 9⟩])])]

/-- Shared-grid contents after the first streamline commits. -/
def g1C1 : List (ℤ × List (ℤ × Cell)) :=
  [(0, [(0, [⟨1, 5⟩])]), (2, [(0, [⟨5, 5⟩])])]

/-- Intermediate contents while the second streamline commits. -/
def g1bC1 : List (ℤ × List (ℤ × Cell)) :=
  [(0, [(0, [⟨1, 5⟩]), (2, [⟨1, 9⟩])]), (2, [(0, [⟨5, 5⟩])])]

/-- Shared-grid contents after both streamlines commit. -/
def g2C1 : List (ℤ × List (ℤ × Cell)) :=
  [(0, [(0, [⟨1, 5⟩]), (2, [⟨1, 9⟩])]), (2, [(0, [⟨5, 5⟩]), (2, [⟨5, 9⟩])])]

noncomputable def i1sC1 : Integ := integC1 ⟨1, 5⟩ [⟨1, 5⟩] ⟨1, 5⟩ IState.forward (-1) []

noncomputable def i1mC1 : Integ :=
  integC1 ⟨1, 5⟩ [⟨1, 5⟩, ⟨5, 5⟩] ⟨5, 5⟩ IState.forward (-1) own1C1

noncomputable def i1dC1 : Integ :=
  integC1 ⟨1, 5⟩ [⟨1, 5⟩, ⟨5, 5⟩] ⟨5, 5⟩ IState.done (-1) own1C1

noncomputable def i2sC1 : Integ := integC1 ⟨1, 9⟩ [⟨1, 9⟩] ⟨1, 9⟩ IState.forward (-1) []

noncomputable def i2mC1 : Integ :=
  integC1 ⟨1, 9⟩ [⟨1, 9⟩, ⟨5, 9⟩] ⟨5, 9⟩ IState.forward (-1) own2C1

noncomputable def i2dC1 : Integ :=
  integC1 ⟨1, 9⟩ [⟨1, 9⟩, ⟨5, 9⟩] ⟨5, 9⟩ IState.done (-1) own2C1

/-- Scheduler states of the C1 run: initial, after each `nextStep` loop
iteration. -/
noncomputable def s0C1 : SchedState :=
  { state := SState.init, grid := sharedC1 [], current := i1sC1, queue := [],
    emitted := [], seedArray := [⟨1, 9⟩] }

noncomputable def s1C1 : SchedState :=
  { state := SState.streamline, grid := sharedC1 g1C1, current := i2sC1,
    queue := [i1dC1], emitted := [[⟨1, 5⟩, ⟨5, 5⟩]], seedArray := [] }

noncomputable def s2C1 : SchedState :=
  { state := SState.processQueue, grid := sharedC1 g2C1, current := i2dC1,
    queue := [i2dC1], emitted := [[⟨1, 5⟩, ⟨5, 5⟩], [⟨1, 9⟩, ⟨5, 9⟩]],
    seedArray := [] }

noncomputable def s3C1 : SchedState :=
  { state := SState.processQueue, grid := sharedC1 g2C1, current := i2dC1,
    queue := [], emitted := [[⟨1, 5⟩, ⟨5, 5⟩], [⟨1, 9⟩, ⟨5, 9⟩]],
    seedArray := [] }

noncomputable def s4C1 : SchedState :=
  { state := SState.done, grid := sharedC1 g2C1, current := i2dC1,
    queue := [], emitted := [[⟨1, 5⟩, ⟨5, 5⟩], [⟨1, 9⟩, ⟨5, 9⟩]],
    seedArray := [] }

/-- The intermediate state inside the first C1 scheduler iteration, after
`initProcessing` has completed the first streamline. -/
noncomputable def sMidC1 : SchedState :=
  { state := SState.processQueue, grid := sharedC1 g1C1, current := i1dC1,
    queue := [i1dC1], emitted := [[⟨1, 5⟩, ⟨5, 5⟩]], seedArray := [⟨1, 9⟩] }

/-- Same state routed to `SEED_STREAMLINE` by `processQueue`. -/
noncomputable def sSeedC1 : SchedState :=
  { state := SState.seedStreamline, grid := sharedC1 g1C1, current := i1dC1,
    queue := [i1dC1], emitted := [[⟨1, 5⟩, ⟨5, 5⟩]], seedArray := [⟨1, 9⟩] }

/-- State after the second streamline completes, routed to seeding. -/
noncomputable def sSeed2C1 : SchedState :=
  { state := SState.seedStreamline, grid := sharedC1 g2C1, current := i2dC1,
    queue := [i1dC1, i2dC1], emitted := [[⟨1, 5⟩, ⟨5, 5⟩], [⟨1, 9⟩, ⟨5, 9⟩]],
    seedArray := [] }

/-- The third iteration routes the queue head `i2dC1` to seeding. -/
noncomputable def sSeed3C1 : SchedState :=
  { state := SState.seedStreamline, grid := sharedC1 g2C1, current := i2dC1,
    queue := [i2dC1], emitted := [[⟨1, 5⟩, ⟨5, 5⟩], [⟨1, 9⟩, ⟨5, 9⟩]],
    seedArray := [] }

/-- The grid of the C1 amended witness: one committed point `(5, 4.9)`
stored in cell `(5, 4)` of a 10×10 grid with cell size 1. -/
def gWitC1 : LookupGrid :=
  { bbox := ⟨0, 0, 10, 10⟩, dSep := 1, bboxSize := 10, cellsCount := 10,
    cells := [(5, [(4, [⟨5, 4.9⟩])])] }

/-! Claim C8 — boundary containment of emitted points. -/

/-- Options of the C8 run: the same dead field and box as the C2 run, but
with the explicit seed `(50, 50)` far outside the `[0,10]²` box and
`forwardOnly` set. -/
noncomputable def cfgC8 : Config :=
  { vectorField := fun _ => none
    boundingBox := ⟨0, 0, 10, 10⟩
    dSep := 1
    dTest := 0.5
    timeStep := 0.01
    forwardOnly := true
    stepsPerIteration := 10
    async := true
    seed := ⟨50, 50⟩ }

/-- Raw constructor options producing `cfgC8`. -/
noncomputable def protoC8 : ProtoConfig :=
  { boundingBox := some
      { left := some 0, top := some 0, width := some 10, height := some 10,
        size := none }
    vectorField := fun _ => none
    forwardOnly := true
    seed := some (Sum.inl ⟨50, 50⟩)
    dSep := some 1
    dTest := some 0.5
    timeStep := some 0.01
    stepsPerIteration := some 10
    async := true
    randomPair := (0, 0) }

/-- The initial integrator of the C8 run, seeded out of bounds. -/
noncomputable def itC8 : Integ := Integ.create ⟨50, 50⟩ cfgC8

/-- The C8 integrator after both growth legs end immediately. -/
noncomputable def itC8done : Integ :=
  { start := ⟨50, 50⟩
    points := [⟨50, 50⟩]
    pos := ⟨50, 50⟩
    state := IState.done
    lastCheckedSeed := -1
    ownGrid := LookupGrid.create ⟨0, 0, 10, 10⟩ (cfgC8.timeStep * 0.9) }

/-- Initial scheduler state of the C8 run. -/
noncomputable def s0C8 : SchedState :=
  { state := SState.init, grid := gridC2, current := itC8, queue := [],
    emitted := [], seedArray := [] }

/-! Claim C9 — only streamlines of length ≥ 2 are queued and emitted. -/

/-- The C9 invariant: every emitted streamline has at least two points, and
every queued finished integrator's point list has at least two points. -/
def goodLens (s : SchedState) : Prop :=
  (∀ l ∈ s.emitted, 2 ≤ l.length) ∧ (∀ q ∈ s.queue, 2 ≤ q.points.length)

/-! Evaluation helpers for concrete square roots, floors and ceilings. -/

lemma sqrtEval (a b : ℝ) (hb : 0 ≤ b) (h : b * b = a) : Real.sqrt a = b := by
  rw [← h]
  exact Real.sqrt_mul_self hb

lemma floorEval (x : ℝ) (n : ℤ) (h1 : (n : ℝ) ≤ x) (h2 : x < n + 1) : ⌊x⌋ = n :=
  Int.floor_eq_iff.mpr ⟨h1, h2⟩

lemma ceilEval (x : ℝ) (n : ℤ) (h1 : (n : ℝ) - 1 < x) (h2 : x ≤ n) : ⌈x⌉ = n :=
  Int.ceil_eq_iff.mpr ⟨h1, h2⟩

/-- C4 counterexample: the private-grid `timeStepCheck` predicate does *not*
apply the fuzzy-equality guard.  At `timeStep = 1` the threshold is `0.9`;
the distance `0.89995` is within `1e-4` of the threshold, yet the predicate
reports taken. -/
theorem c4_counterexample :
    isSame 0.89995 (cfgC4.timeStep * 0.9) ∧ timeStepCheck cfgC4 0.89995 := by
  constructor
  · show |(0.89995 : ℝ) - 1 * 0.9| < 1e-4
    rw [abs_sub_lt_iff]
    norm_num
  · show (0.89995 : ℝ) < 1 * 0.9
    norm_num

/-- C4 amended: the `checkDTest` and `checkDSep` predicates (used for the
shared-grid stop test and the shared-grid seed test) do apply the
`|a-b| < 1e-4` guard — a distance within `1e-4` of the threshold is reported
not taken — but the private-grid `timeStepCheck` is a bare strict comparison
against `0.9 * timeStep` with no guard. -/
theorem c4_amended (cfg : Config) (d : ℝ) :
    (isSame d cfg.dTest → ¬ checkDTest cfg d) ∧
    (isSame d cfg.dSep → ¬ checkDSep cfg d) ∧
    (timeStepCheck cfg d ↔ d < cfg.timeStep * 0.9) := by
  refine ⟨fun h hc => hc.1 h, fun h hc => hc.1 h, Iff.rfl⟩

/-- C4 amended, witnessed at concrete inputs: a distance exactly at `dTest`
(resp. `dSep`) is not taken, and `timeStepCheck` is the bare comparison. -/
theorem c4_amended_witness :
    ¬ checkDTest cfgC4 0.5 ∧ ¬ checkDSep cfgC4 1 ∧
      (timeStepCheck cfgC4 0.8 ↔ (0.8 : ℝ) < 1 * 0.9) := by
  refine ⟨(c4_amended cfgC4 0.5).1 ?_, (c4_amended cfgC4 1).2.1 ?_,
    (c4_amended cfgC4 0.8).2.2⟩
  · show |(0.5 : ℝ) - 0.5| < 1e-4
    rw [abs_sub_lt_iff]
    norm_num
  · show |(1 : ℝ) - 1| < 1e-4
    rw [abs_sub_lt_iff]
    norm_num

/-! Claim C10 — `occupyCoordinates` cannot throw on in-box points. -/

/-- C10: for every grid whose `bboxSize` is `max(width, height)` (as every
constructed grid's is) and every point not `isOutside`, `occupyCoordinates`
succeeds: the `assertInBounds` error branches are unreachable because both
axes are bounded by `bboxSize ≥ width, height`. -/
theorem c10_occupy_never_throws (g : LookupGrid)
    (hsize : g.bboxSize = max g.bbox.width g.bbox.height)
    (p : Vec) (h : ¬ g.isOutside p.x p.y) :
    ∃ g2, g.occupyCoordinates p = Except.ok g2 := by
  rw [LookupGrid.isOutside] at h
  push_neg at h
  obtain ⟨hx1, hx2, hy1, hy2⟩ := h
  have hxb : p.x ≤ g.bbox.left + g.bboxSize := by
    refine le_trans hx2 ?_
    rw [hsize]
    exact add_le_add_left (le_max_left _ _) _
  have hyb : p.y ≤ g.bbox.top + g.bboxSize := by
    refine le_trans hy2 ?_
    rw [hsize]
    exact add_le_add_left (le_max_right _ _) _
  rw [LookupGrid.occupyCoordinates, LookupGrid.assertInBounds]
  rw [if_neg (by push_neg; exact ⟨hx1, hxb⟩)]
  rw [if_neg (by push_neg; exact ⟨hy1, hyb⟩)]
  exact ⟨_, rfl⟩

/-- C10 witness: the in-box point `(3, 4)` is occupied without an error. -/
theorem c10_witness : ∃ g2, gridC10.occupyCoordinates ⟨3, 4⟩ = Except.ok g2 := by
  refine c10_occupy_never_throws gridC10 rfl ⟨3, 4⟩ ?_
  rw [gridC10, LookupGrid.create, LookupGrid.isOutside]
  push_neg
  norm_num

/-- C3 counterexample: constructing with a missing bounding box does **not**
fail — the constructor emits a console warning and proceeds with the default
box `{left: -5, top: -5, width: 10, height: 10}`. -/
theorem c3_counterexample :
    resultWarned (mkStreamlines protoC3) = some true ∧
      resultBox (mkStreamlines protoC3) = some ⟨-5, -5, 10, 10⟩ := by
  have h : mkStreamlines protoC3 =
      Except.ok { cfg := { vectorField := protoC3.vectorField
                           boundingBox := ⟨-5, -5, 10, 10⟩
                           dSep := 1
                           dTest := 0.5
                           timeStep := 0.1
                           forwardOnly := false
                           stepsPerIteration := 10
                           async := false
                           seed := ⟨0, 0⟩ }
                  s0 := { state := SState.init
                          grid := LookupGrid.create ⟨-5, -5, 10, 10⟩ 1
                          current := Integ.create ⟨0, 0⟩
                            { vectorField := protoC3.vectorField
                              boundingBox := ⟨-5, -5, 10, 10⟩
                              dSep := 1
                              dTest := 0.5
                              timeStep := 0.1
                              forwardOnly := false
                              stepsPerIteration := 10
                              async := false
                              seed := ⟨0, 0⟩ }
                          queue := []
                          emitted := []
                          seedArray := [] }
                  warnedDefaultBox := true } := by
    rw [mkStreamlines]
    norm_num [protoC3, normalizeBoundingBox, assertNumber]
  rw [h, resultWarned, resultBox]
  exact ⟨rfl, rfl⟩

/-- C3 amended: a missing bounding box does not fail construction — the
constructor warns and substitutes the default box `{-5, -5, 10, 10}` —
whereas a bounding box that is present but invalid (here: non-positive
width) does fail fast with a synchronous error. -/
theorem c3_amended :
    (∀ proto : ProtoConfig, proto.boundingBox = none →
        proto.seed ≠ some (Sum.inr []) →
        resultWarned (mkStreamlines proto) = some true ∧
          resultBox (mkStreamlines proto) = some ⟨-5, -5, 10, 10⟩) ∧
      mkStreamlines protoC3bad = Except.error "Bounding box cannot be empty" := by
  constructor
  · intro proto hbox hseed
    rw [mkStreamlines, hbox]
    have hnorm : normalizeBoundingBox
        { left := some (-5), top := some (-5), width := some 10,
          height := some 10, size := none } = Except.ok ⟨-5, -5, 10, 10⟩ := by
      rw [normalizeBoundingBox]
      norm_num [assertNumber]
    rw [hnorm]
    match hs : proto.seed with
    | none => simp [Except.bind, resultWarned, resultBox]
    | some (Sum.inl v) => simp [Except.bind, resultWarned, resultBox]
    | some (Sum.inr []) => exact absurd hs hseed
    | some (Sum.inr (v :: rest)) => simp [Except.bind, resultWarned, resultBox]
  · rw [mkStreamlines]
    norm_num [protoC3bad, protoC3, bboxProtoBad, normalizeBoundingBox, assertNumber]

/-- C3 amended, witnessed: the missing-box branch at the concrete `protoC3`
and the invalid-box error are both exhibited. -/
theorem c3_amended_witness :
    (resultWarned (mkStreamlines protoC3) = some true ∧
        resultBox (mkStreamlines protoC3) = some ⟨-5, -5, 10, 10⟩) ∧
      mkStreamlines protoC3bad = Except.error "Bounding box cannot be empty" :=
  ⟨c3_amended.1 protoC3 rfl (by simp [protoC3]), c3_amended.2⟩

/-! Claim C7 — reach of the 3×3 neighbourhood scan of `isTaken`. -/

lemma floorDiffLe (a b : ℝ) (h : |a - b| < 1) : |⌊a⌋ - ⌊b⌋| ≤ 1 := by
  rw [abs_sub_lt_iff] at h
  rw [abs_sub_le_iff]
  constructor
  · have ha : a ≤ b + 1 := le_of_lt (by linarith [h.1])
    have := Int.floor_le_floor ha
    rw [show b + (1 : ℝ) = b + ((1 : ℤ) : ℝ) from by norm_num, Int.floor_add_int] at this
    omega
  · have hb : b ≤ a + 1 := le_of_lt (by linarith [h.2])
    have := Int.floor_le_floor hb
    rw [show a + (1 : ℝ) = a + ((1 : ℤ) : ℝ) from by norm_num, Int.floor_add_int] at this
    omega

lemma gridIdxDiff (c S l x1 x2 : ℝ) (hS : 0 < S) (hc : 0 < c)
    (h : |x1 - x2| < S / c) :
    |⌊c * (x1 - l) / S⌋ - ⌊c * (x2 - l) / S⌋| ≤ 1 := by
  apply floorDiffLe
  have heq : c * (x1 - l) / S - c * (x2 - l) / S = c * (x1 - x2) / S := by ring
  rw [heq, abs_div, abs_mul, abs_of_pos hc, abs_of_pos hS, div_lt_one hS]
  calc c * |x1 - x2| < c * (S / c) := by
        exact mul_lt_mul_of_pos_left h hc
    _ = S := mul_div_cancel₀ S (ne_of_gt hc)

/-- C7 amended, part 1: two coordinates closer than the actual cell width
`bboxSize / cellsCount` (which can be smaller than `spacing`) land in the
same or adjacent grid columns. -/
lemma gridXAdjacent (g : LookupGrid) (hS : 0 < g.bboxSize)
    (hcc : 0 < g.cellsCount) (x1 x2 : ℝ)
    (h : |x1 - x2| < g.bboxSize / g.cellsCount) :
    |g.gridX x1 - g.gridX x2| ≤ 1 := by
  rw [LookupGrid.gridX, LookupGrid.gridX]
  exact gridIdxDiff _ _ _ _ _ hS (by exact_mod_cast hcc) h

lemma gridYAdjacent (g : LookupGrid) (hS : 0 < g.bboxSize)
    (hcc : 0 < g.cellsCount) (y1 y2 : ℝ)
    (h : |y1 - y2| < g.bboxSize / g.cellsCount) :
    |g.gridY y1 - g.gridY y2| ≤ 1 := by
  rw [LookupGrid.gridY, LookupGrid.gridY]
  exact gridIdxDiff _ _ _ _ _ hS (by exact_mod_cast hcc) h

lemma absCoordLeDist (a p : Vec) :
    |p.x - a.x| ≤ Vec.distanceTo a p ∧ |p.y - a.y| ≤ Vec.distanceTo a p := by
  rw [Vec.distanceTo]
  constructor
  · rw [← Real.sqrt_sq_eq_abs]
    apply Real.sqrt_le_sqrt
    nlinarith [sq_nonneg (p.y - a.y)]
  · rw [← Real.sqrt_sq_eq_abs]
    apply Real.sqrt_le_sqrt
    nlinarith [sq_nonneg (p.x - a.x)]

/-- C7 amended: a stored point whose distance to the query `(x, y)` is
strictly below the true cell width `bboxSize / cellsCount` — not below
`spacing`, which can exceed the cell width — and whose own cell indices lie
inside `[0, cellsCount)` is found by the 3×3 scan, so `isTaken` reports
taken whenever the predicate accepts that point. -/
theorem c7_scan_reach (g : LookupGrid) (hS : 0 < g.bboxSize)
    (hcc : 0 < g.cellsCount)
    (x y : ℝ) (p : Vec) (ch : Cell) (check : ℝ → Vec → Prop)
    (hgx0 : 0 ≤ g.gridX p.x) (hgx1 : g.gridX p.x < g.cellsCount)
    (hgy0 : 0 ≤ g.gridY p.y) (hgy1 : g.gridY p.y < g.cellsCount)
    (hcell : cellAt g (g.gridX p.x) (g.gridY p.y) = some ch) (hp : p ∈ ch)
    (hdist : Vec.distanceTo ⟨x, y⟩ p < g.bboxSize / g.cellsCount)
    (hchk : check (Real.sqrt ((p.x - x) * (p.x - x) + (p.y - y) * (p.y - y))) p) :
    g.isTaken x y check := by
  obtain ⟨hdx, hdy⟩ := absCoordLeDist ⟨x, y⟩ p
  have hxa := gridXAdjacent g hS hcc p.x x (lt_of_le_of_lt hdx hdist)
  have hya := gridYAdjacent g hS hcc p.y y (lt_of_le_of_lt hdy hdist)
  rw [abs_le] at hxa hya
  refine ⟨g.gridX p.x - g.gridX x, ?_, g.gridY p.y - g.gridY y, ?_, ?_⟩
  · have h1 := hxa.1
    have h2 := hxa.2
    simp only [List.mem_cons, List.mem_singleton]
    omega
  · have h1 := hya.1
    have h2 := hya.2
    simp only [List.mem_cons, List.mem_singleton]
    omega
  · have ex : g.gridX x + (g.gridX p.x - g.gridX x) = g.gridX p.x := by ring
    have ey : g.gridY y + (g.gridY p.y - g.gridY y) = g.gridY p.y := by ring
    rw [ex, ey]
    exact ⟨hgx0, hgx1, hgy0, hgy1, ch, hcell, p, hp, hchk⟩

/-- Source `gridC7` is exactly what creating the grid and occupying `(5.3, 5)`
produces. -/
theorem gridC7_built :
    (LookupGrid.create ⟨0, 0, 10, 10⟩ 3).occupyCoordinates ⟨5.3, 5⟩ =
      Except.ok gridC7 := by
  have hcc : (LookupGrid.create ⟨0, 0, 10, 10⟩ 3).cellsCount = 4 := by
    rw [LookupGrid.create]
    show ⌈max (10 : ℝ) 10 / 3⌉ = 4
    rw [ceilEval _ 4] <;> norm_num
  rw [LookupGrid.occupyCoordinates, LookupGrid.assertInBounds]
  rw [if_neg (by rw [LookupGrid.create]; push_neg; constructor <;> norm_num)]
  rw [if_neg (by rw [LookupGrid.create]; push_neg; constructor <;> norm_num)]
  have hgx : (LookupGrid.create ⟨0, 0, 10, 10⟩ 3).gridX 5.3 = 2 := by
    rw [LookupGrid.gridX, hcc]
    rw [LookupGrid.create]
    show ⌊(4 : ℤ) * ((5.3 : ℝ) - 0) / max 10 10⌋ = 2
    rw [floorEval _ 2] <;> norm_num
  have hgy : (LookupGrid.create ⟨0, 0, 10, 10⟩ 3).gridY 5 = 2 := by
    rw [LookupGrid.gridY, hcc]
    rw [LookupGrid.create]
    show ⌊(4 : ℤ) * ((5 : ℝ) - 0) / max 10 10⌋ = 2
    rw [floorEval _ 2] <;> norm_num
  show Except.ok _ = _
  rw [hgx, hgy]
  simp only [LookupGrid.create, List.lookup_nil, Option.getD_none, gridC7]
  norm_num [updateAssoc, Cell.occupy]
  rw [ceilEval _ 4] <;> norm_num

/-- C7 counterexample: the stored point `(5.3, 5)` is at distance
`2.9 < spacing = 3` from the query `(2.4, 5)`, satisfies the always-true
predicate, yet lies two grid columns away (`gridX 5.3 = 2`, `gridX 2.4 = 0`
— the cell width is only `2.5`), so the 3×3 scan misses it and `isTaken`
reports not taken. -/
theorem c7_counterexample :
    Vec.distanceTo ⟨2.4, 5⟩ ⟨5.3, 5⟩ < gridC7.dSep ∧
      ¬ gridC7.isTaken 2.4 5 (fun _ _ => True) := by
  have hgx : gridC7.gridX 2.4 = 0 := by
    rw [LookupGrid.gridX]
    show ⌊(4 : ℤ) * ((2.4 : ℝ) - 0) / 10⌋ = 0
    rw [floorEval _ 0] <;> norm_num
  constructor
  · rw [Vec.distanceTo]
    show Real.sqrt ((5.3 - 2.4) * (5.3 - 2.4) + (5 - 5) * (5 - 5)) < gridC7.dSep
    rw [show ((5.3 - 2.4) * (5.3 - 2.4) + (5 - 5) * (5 - 5) : ℝ) = 2.9 * 2.9 from by
      norm_num]
    rw [Real.sqrt_mul_self (by norm_num : (0:ℝ) ≤ 2.9)]
    show (2.9 : ℝ) < 3
    norm_num
  · rintro ⟨col, hcol, row, hrow, _, _, _, _, c, hc, -⟩
    rw [hgx] at hc
    fin_cases hcol <;> revert hc <;>
      first
        | (show cellAt gridC7 (0 + -1) _ = some c → False
           rw [show (0 + -1 : ℤ) = -1 from by omega]
           intro hc
           exact Option.noConfusion hc)
        | (show cellAt gridC7 (0 + 0) _ = some c → False
           rw [show (0 + 0 : ℤ) = 0 from by omega]
           intro hc
           exact Option.noConfusion hc)
        | (show cellAt gridC7 (0 + 1) _ = some c → False
           rw [show (0 + 1 : ℤ) = 1 from by omega]
           intro hc
           exact Option.noConfusion hc)

/-- C7 amended, witnessed: the stored point `(5.3, 5)` is found from the
query `(5.3, 6)` at distance `1 < 2.5 = bboxSize / cellsCount`. -/
theorem c7_scan_reach_witness : gridC7.isTaken 5.3 6 (fun _ _ => True) := by
  have hgx : gridC7.gridX 5.3 = 2 := by
    rw [LookupGrid.gridX]
    show ⌊(4 : ℤ) * ((5.3 : ℝ) - 0) / 10⌋ = 2
    rw [floorEval _ 2] <;> norm_num
  have hgy : gridC7.gridY 5 = 2 := by
    rw [LookupGrid.gridY]
    show ⌊(4 : ℤ) * ((5 : ℝ) - 0) / 10⌋ = 2
    rw [floorEval _ 2] <;> norm_num
  refine c7_scan_reach gridC7 (by norm_num [gridC7]) (by norm_num [gridC7])
    5.3 6 ⟨5.3, 5⟩ [⟨5.3, 5⟩] _ ?_ ?_ ?_ ?_ ?_ ?_ ?_ trivial
  · rw [hgx]; norm_num
  · rw [hgx]; norm_num [gridC7]
  · rw [hgy]; norm_num
  · rw [hgy]; norm_num [gridC7]
  · rw [hgx, hgy]; rfl
  · exact List.mem_singleton.mpr rfl
  · rw [Vec.distanceTo]
    show Real.sqrt ((5.3 - 5.3) * (5.3 - 5.3) + (5 - 6) * (5 - 6)) <
      gridC7.bboxSize / gridC7.cellsCount
    rw [show ((5.3 - 5.3) * (5.3 - 5.3) + (5 - 6) * (5 - 6) : ℝ) = 1 * 1 from by
      norm_num]
    rw [Real.sqrt_mul_self (by norm_num : (0:ℝ) ≤ 1)]
    show (1 : ℝ) < 10 / (4 : ℤ)
    norm_num

/-! Claim C5 — seed-queue override in `getNextValidSeed`. -/

lemma isTakenEmpty (g : LookupGrid) (h : g.cells = []) (x y : ℝ)
    (check : ℝ → Vec → Prop) : ¬ g.isTaken x y check := by
  rintro ⟨col, _, row, _, _, _, _, _, c, hc, _⟩
  rw [cellAt, h] at hc
  rw [List.lookup_nil] at hc
  exact Option.noConfusion hc

/-- C5 amended: if the seed queue is non-empty and its head `s` is in bounds
and not taken under the `dSep` predicate, then a scan that finds any live
point returns exactly `s` (and a scan that finds none returns nothing) — the
head takes priority over the geometric candidates.  (When the head *fails*
its check, the scan goes on to test the second geometric candidate: see the
counterexample.) -/
theorem c5_head_priority (cfg : Config) (grid : LookupGrid) (suffix : List Vec)
    (lcs : ℤ) (s : Vec) (rest : List Vec)
    (hout : ¬ grid.isOutside s.x s.y)
    (htak : ¬ grid.isTaken s.x s.y (fun d _ => checkDSep cfg d)) :
    (seedScan cfg grid suffix lcs (s :: rest)).1 = none ∨
      (seedScan cfg grid suffix lcs (s :: rest)).1 = some s := by
  induction suffix generalizing lcs with
  | nil =>
    left
    rfl
  | cons p tail ih =>
    rw [seedScan]
    cases hnv : normalizedVectorField cfg p with
    | none => exact ih (lcs + 1)
    | some v =>
      dsimp only
      rw [if_pos ⟨hout, htak⟩]
      right
      rfl

lemma nvfC5 : normalizedVectorField cfgC5 ⟨5, 5⟩ = some ⟨1, 0⟩ := by
  rw [normalizedVectorField]
  show (match (if (5 : ℝ) = 5 ∧ (5 : ℝ) = 5 then some (⟨1, 0⟩ : Vec) else none) with
    | none => none
    | some vec => _) = _
  rw [if_pos ⟨rfl, rfl⟩]
  show (if (1 : ℝ) * 1 + 0 * 0 = 0 then none else _) = _
  rw [if_neg (by norm_num)]
  have h : Real.sqrt ((1 : ℝ) * 1 + 0 * 0) = 1 := by
    rw [sqrtEval _ 1] <;> norm_num
  rw [h]
  norm_num

lemma gridC5_gx2 : gridC5.gridX 2 = 2 := by
  rw [LookupGrid.gridX]
  show ⌊(10 : ℤ) * ((2 : ℝ) - 0) / 10⌋ = 2
  rw [floorEval _ 2] <;> norm_num

lemma gridC5_gy2 : gridC5.gridY 2 = 2 := by
  rw [LookupGrid.gridY]
  show ⌊(10 : ℤ) * ((2 : ℝ) - 0) / 10⌋ = 2
  rw [floorEval _ 2] <;> norm_num

lemma gridC5_gx5 : gridC5.gridX 5 = 5 := by
  rw [LookupGrid.gridX]
  show ⌊(10 : ℤ) * ((5 : ℝ) - 0) / 10⌋ = 5
  rw [floorEval _ 5] <;> norm_num

lemma gridC5_gy4 : gridC5.gridY 4 = 4 := by
  rw [LookupGrid.gridY]
  show ⌊(10 : ℤ) * ((4 : ℝ) - 0) / 10⌋ = 4
  rw [floorEval _ 4] <;> norm_num

lemma takenC5 : gridC5.isTaken 2 2 (fun d _ => checkDSep cfgC5 d) := by
  refine ⟨0, by decide, 0, by decide, ?_⟩
  rw [gridC5_gx2, gridC5_gy2]
  refine ⟨by norm_num, by norm_num [gridC5], by norm_num, by norm_num [gridC5],
    [⟨2, 2.5⟩], rfl, ⟨2, 2.5⟩, List.mem_singleton.mpr rfl, ?_⟩
  show checkDSep cfgC5 (Real.sqrt ((2 - 2) * (2 - 2) + (2.5 - 2) * (2.5 - 2)))
  have h : Real.sqrt (((2 : ℝ) - 2) * (2 - 2) + (2.5 - 2) * (2.5 - 2)) = 0.5 := by
    rw [sqrtEval _ 0.5] <;> norm_num
  rw [h, checkDSep]
  constructor
  · show ¬ |(0.5 : ℝ) - cfgC5.dSep| < 1e-4
    show ¬ |(0.5 : ℝ) - 1| < 1e-4
    rw [abs_sub_lt_iff]
    norm_num
  · show (0.5 : ℝ) < cfgC5.dSep
    show (0.5 : ℝ) < 1
    norm_num

lemma notTakenC5 : ¬ gridC5.isTaken 5 4 (fun d _ => checkDSep cfgC5 d) := by
  rintro ⟨col, hcol, row, hrow, _, _, _, _, c, hc, -⟩
  rw [gridC5_gx5] at hc
  fin_cases hcol <;> revert hc <;> intro hc <;>
    [ (rw [show (5 + -1 : ℤ) = 4 from by omega] at hc;
       exact Option.noConfusion hc);
      (rw [show (5 + 0 : ℤ) = 5 from by omega] at hc;
       exact Option.noConfusion hc);
      (rw [show (5 + 1 : ℤ) = 6 from by omega] at hc;
       exact Option.noConfusion hc)]

/-- C5 counterexample: with the non-empty seed queue `[(2, 2)]`, whose head
is blocked by the committed point `(2, 2.5)` (distance `0.5 < dSep`), the
very same scan step still generates and tests the *second geometric*
candidate `(5, 4)` and returns it, while the queue head has been consumed:
the dequeued head is not the only candidate tested in that scan step, and
the spawned integrator does not start at the queued seed. -/
theorem c5_counterexample :
    (getNextValidSeed cfgC5 gridC5 itC5 [⟨2, 2⟩]).1 = some ⟨5, 4⟩ ∧
      (getNextValidSeed cfgC5 gridC5 itC5 [⟨2, 2⟩]).2.2 = [] ∧
      (⟨5, 4⟩ : Vec) ≠ ⟨2, 2⟩ := by
  have hscan : seedScan cfgC5 gridC5 [⟨5, 5⟩] (-1) [⟨2, 2⟩] =
      (some ⟨5, 4⟩, 0, []) := by
    rw [seedScan, nvfC5]
    dsimp only
    rw [if_neg (fun h => h.2 takenC5)]
    have ho : ¬ gridC5.isOutside (5 + 0 * cfgC5.dSep) (5 - 1 * cfgC5.dSep) := by
      rw [LookupGrid.isOutside]
      push_neg
      norm_num [gridC5, cfgC5]
    have ht : ¬ gridC5.isTaken (5 + 0 * cfgC5.dSep) (5 - 1 * cfgC5.dSep)
        (fun d _ => checkDSep cfgC5 d) := by
      rw [show (5 + 0 * cfgC5.dSep : ℝ) = 5 from by norm_num [cfgC5],
          show (5 - 1 * cfgC5.dSep : ℝ) = 4 from by norm_num [cfgC5]]
      exact notTakenC5
    rw [if_pos ⟨ho, ht⟩]
    norm_num [cfgC5]
  have hpts : itC5.points = [⟨5, 5⟩] := rfl
  have hlcs : itC5.lastCheckedSeed = -1 := rfl
  rw [getNextValidSeed, hpts, hlcs]
  rw [show ((-1 : ℤ) + 1).toNat = 0 from rfl]
  rw [List.drop_zero, hscan]
  refine ⟨rfl, rfl, ?_⟩
  intro h
  have := congrArg Vec.x h
  norm_num at this

/-- C5 amended, witnessed: on an empty grid the queued head `(2, 2)` is
valid, and the scan returns it (or nothing). -/
theorem c5_head_priority_witness :
    (seedScan cfgC5 gridC5e [⟨5, 5⟩] (-1) [⟨2, 2⟩]).1 = none ∨
      (seedScan cfgC5 gridC5e [⟨5, 5⟩] (-1) [⟨2, 2⟩]).1 = some ⟨2, 2⟩ := by
  refine c5_head_priority cfgC5 gridC5e [⟨5, 5⟩] (-1) ⟨2, 2⟩ [] ?_ ?_
  · rw [LookupGrid.isOutside]
    push_neg
    norm_num [gridC5e]
  · exact isTakenEmpty gridC5e rfl 2 2 _

/-! Claim C6 — `lastCheckedSeed` monotonicity and point re-examination. -/

lemma seedScan_lcs_mono (cfg : Config) (grid : LookupGrid) (suffix : List Vec)
    (lcs : ℤ) (sa : List Vec) :
    lcs ≤ (seedScan cfg grid suffix lcs sa).2.1 := by
  induction suffix generalizing lcs sa with
  | nil => exact le_refl lcs
  | cons p tail ih =>
    cases hnv : normalizedVectorField cfg p with
    | none =>
      rw [show seedScan cfg grid (p :: tail) lcs sa =
          seedScan cfg grid tail (lcs + 1) sa from by simp only [seedScan, hnv]]
      exact le_trans (by omega) (ih (lcs + 1) sa)
    | some v =>
      simp only [seedScan, hnv]
      cases sa with
      | nil =>
        dsimp only
        split_ifs with h1 h2
        · show lcs ≤ lcs + 1 - 1
          omega
        · show lcs ≤ lcs + 1
          omega
        · exact le_trans (by omega) (ih (lcs + 1) [])
      | cons s t =>
        dsimp only
        split_ifs with h1 h2
        · show lcs ≤ lcs + 1 - 1
          omega
        · show lcs ≤ lcs + 1
          omega
        · exact le_trans (by omega) (ih (lcs + 1) t)

/-- C6 amended: across successive `getNextValidSeed` calls the observable
`lastCheckedSeed` value never decreases (net): the post-call value is always
at least the pre-call value.  (Within a call the source decrements the index
by one after accepting a first-side candidate, so the same point *is*
examined again by the next call: see the counterexample.) -/
theorem c6_lcs_never_decreases (cfg : Config) (grid : LookupGrid)
    (it : Integ) (sa : List Vec) :
    it.lastCheckedSeed ≤ ((getNextValidSeed cfg grid it sa).2.1).lastCheckedSeed := by
  rw [getNextValidSeed]
  exact seedScan_lcs_mono cfg grid _ it.lastCheckedSeed sa

lemma gridC6b_gx5 : gridC6b.gridX 5 = 5 := by
  rw [LookupGrid.gridX]
  show ⌊(10 : ℤ) * ((5 : ℝ) - 0) / 10⌋ = 5
  rw [floorEval _ 5] <;> norm_num

lemma gridC6b_gy6 : gridC6b.gridY 6 = 6 := by
  rw [LookupGrid.gridY]
  show ⌊(10 : ℤ) * ((6 : ℝ) - 0) / 10⌋ = 6
  rw [floorEval _ 6] <;> norm_num

lemma gridC6b_gy4 : gridC6b.gridY 4 = 4 := by
  rw [LookupGrid.gridY]
  show ⌊(10 : ℤ) * ((4 : ℝ) - 0) / 10⌋ = 4
  rw [floorEval _ 4] <;> norm_num

lemma gridC6b_taken56 : gridC6b.isTaken 5 6 (fun d _ => checkDSep cfgC5 d) := by
  refine ⟨0, by decide, 0, by decide, ?_⟩
  rw [gridC6b_gx5, gridC6b_gy6]
  refine ⟨by norm_num, by norm_num [gridC6b], by norm_num, by norm_num [gridC6b],
    [⟨5, 6⟩], rfl, ⟨5, 6⟩, List.mem_singleton.mpr rfl, ?_⟩
  show checkDSep cfgC5 (Real.sqrt ((5 - 5) * (5 - 5) + (6 - 6) * (6 - 6)))
  have h : Real.sqrt (((5 : ℝ) - 5) * (5 - 5) + (6 - 6) * (6 - 6)) = 0 := by
    rw [sqrtEval _ 0] <;> norm_num
  rw [h, checkDSep]
  constructor
  · show ¬ |(0 : ℝ) - cfgC5.dSep| < 1e-4
    show ¬ |(0 : ℝ) - 1| < 1e-4
    rw [abs_sub_lt_iff]
    norm_num
  · show (0 : ℝ) < cfgC5.dSep
    show (0 : ℝ) < 1
    norm_num

lemma gridC6b_notTaken54 : ¬ gridC6b.isTaken 5 4 (fun d _ => checkDSep cfgC5 d) := by
  rintro ⟨col, hcol, row, hrow, _, _, _, _, c, hc, -⟩
  rw [gridC6b_gx5, gridC6b_gy4] at hc
  fin_cases hcol <;> fin_cases hrow <;> exact Option.noConfusion hc

/-- C6 counterexample: call A on the one-point integrator (points
`[(5,5)]`, `lastCheckedSeed = -1`, empty shared grid) examines exactly index
0, accepts the first-side candidate `(5, 6)` and hands back
`lastCheckedSeed = -1` — unchanged, because the source decrements it after
the first-side acceptance.  Once the spawned streamline has committed
`(5, 6)`, the successor call B (same points, same `lastCheckedSeed = -1`)
examines index 0 *again* (and now returns the other side `(5, 4)`): the
index is examined twice across successive calls, refuting "no index is
examined more than once". -/
theorem c6_counterexample :
    examinedIndices cfgC5 gridC5e itC5 [] = [0] ∧
      (getNextValidSeed cfgC5 gridC5e itC5 []).1 = some ⟨5, 6⟩ ∧
      (getNextValidSeed cfgC5 gridC5e itC5 []).2.1.lastCheckedSeed = -1 ∧
      examinedIndices cfgC5 gridC6b itC5 [] = [0] ∧
      (getNextValidSeed cfgC5 gridC6b itC5 []).1 = some ⟨5, 4⟩ := by
  have hoGeo : ¬ gridC5e.isOutside (5 - 0 * cfgC5.dSep) (5 + 1 * cfgC5.dSep) := by
    rw [LookupGrid.isOutside]
    push_neg
    norm_num [gridC5e, cfgC5]
  have hoGeoB : ¬ gridC6b.isOutside (5 - 0 * cfgC5.dSep) (5 + 1 * cfgC5.dSep) := by
    rw [LookupGrid.isOutside]
    push_neg
    norm_num [gridC6b, cfgC5]
  have htGeoB : gridC6b.isTaken (5 - 0 * cfgC5.dSep) (5 + 1 * cfgC5.dSep)
      (fun d _ => checkDSep cfgC5 d) := by
    rw [show (5 - 0 * cfgC5.dSep : ℝ) = 5 from by norm_num [cfgC5],
        show (5 + 1 * cfgC5.dSep : ℝ) = 6 from by norm_num [cfgC5]]
    exact gridC6b_taken56
  have hoOther : ¬ gridC6b.isOutside (5 + 0 * cfgC5.dSep) (5 - 1 * cfgC5.dSep) := by
    rw [LookupGrid.isOutside]
    push_neg
    norm_num [gridC6b, cfgC5]
  have htOther : ¬ gridC6b.isTaken (5 + 0 * cfgC5.dSep) (5 - 1 * cfgC5.dSep)
      (fun d _ => checkDSep cfgC5 d) := by
    rw [show (5 + 0 * cfgC5.dSep : ℝ) = 5 from by norm_num [cfgC5],
        show (5 - 1 * cfgC5.dSep : ℝ) = 4 from by norm_num [cfgC5]]
    exact gridC6b_notTaken54
  have hpts : itC5.points = [⟨5, 5⟩] := rfl
  have hlcs : itC5.lastCheckedSeed = -1 := rfl
  have hdrop : (itC5.points.drop (itC5.lastCheckedSeed + 1).toNat) = [⟨5, 5⟩] := rfl
  have hexamA : examinedScan cfgC5 gridC5e [⟨5, 5⟩] (-1) [] = [0] := by
    rw [examinedScan, nvfC5]
    dsimp only
    rw [if_pos ⟨hoGeo, isTakenEmpty gridC5e rfl _ _ _⟩]
    norm_num
  have hscanA : seedScan cfgC5 gridC5e [⟨5, 5⟩] (-1) [] =
      (some ⟨5 - 0 * cfgC5.dSep, 5 + 1 * cfgC5.dSep⟩, -1 + 1 - 1, []) := by
    rw [seedScan, nvfC5]
    dsimp only
    rw [if_pos ⟨hoGeo, isTakenEmpty gridC5e rfl _ _ _⟩]
  have hexamB : examinedScan cfgC5 gridC6b [⟨5, 5⟩] (-1) [] = [0] := by
    rw [examinedScan, nvfC5]
    dsimp only
    rw [if_neg (fun h => h.2 htGeoB)]
    rw [if_pos ⟨hoOther, htOther⟩]
    norm_num
  have hscanB : seedScan cfgC5 gridC6b [⟨5, 5⟩] (-1) [] =
      (some ⟨5 + 0 * cfgC5.dSep, 5 - 1 * cfgC5.dSep⟩, -1 + 1, []) := by
    rw [seedScan, nvfC5]
    dsimp only
    rw [if_neg (fun h => h.2 htGeoB)]
    rw [if_pos ⟨hoOther, htOther⟩]
  refine ⟨?_, ?_, ?_, ?_, ?_⟩
  · rw [examinedIndices, hdrop, hlcs, hexamA]
  · rw [getNextValidSeed, hdrop, hlcs, hscanA]
    norm_num [cfgC5]
  · rw [getNextValidSeed, hdrop, hlcs, hscanA]
    norm_num
  · rw [examinedIndices, hdrop, hlcs, hexamB]
  · rw [getNextValidSeed, hdrop, hlcs, hscanB]
    norm_num [cfgC5]

/-! Claim C2 — what `run()` does when `async` is not set. -/

lemma nextStepLoopSyncNoResolve (cfg : Config) (nf : ℕ) :
    ∀ n s s2, nextStepLoop cfg nf false n s ≠ NextStepResult.resolved s2 := by
  intro n
  induction n with
  | zero =>
    intro s s2 h
    exact NextStepResult.noConfusion h
  | succ n ih =>
    intro s s2 h
    rw [nextStepLoop] at h
    revert h
    cases hsb : schedBody cfg nf s with
    | error e =>
      intro h
      exact NextStepResult.noConfusion h
    | ok s3 =>
      intro h
      dsimp only at h
      by_cases hd : s3.state = SState.done
      · rw [if_pos hd] at h
        exact NextStepResult.noConfusion h
      · rw [if_neg hd] at h
        exact ih s3 s2 h

/-- C2 amended: when `async` is not set, `run()` performs exactly one
`nextStep` turn synchronously — at most `stepsPerIteration` loop iterations
— with the promise resolver left unassigned; such a turn can never complete
successfully: reaching `DONE` invokes the unassigned resolver (a runtime
`TypeError`), and otherwise the remaining work is re-armed on a timer
(`scheduled`), so `run()` returns long before the computation finishes. -/
theorem c2_sync_behavior (cfg : Config) (nf : ℕ) (s : SchedState)
    (h : cfg.async = false) :
    run cfg nf s = RunResult.syncReturn (nextStep cfg nf false s) ∧
      ∀ s2, nextStep cfg nf false s ≠ NextStepResult.resolved s2 := by
  constructor
  · rw [run, if_neg (by rw [h]; exact Bool.false_ne_true)]
  · intro s2
    rw [nextStep]
    exact nextStepLoopSyncNoResolve cfg nf cfg.stepsPerIteration s s2

lemma gridC2_create : LookupGrid.create ⟨0, 0, 10, 10⟩ 1 = gridC2 := by
  rw [LookupGrid.create, gridC2]
  rw [max_self]
  rw [show (⌈(10 : ℝ) / 1⌉ : ℤ) = 10 from by rw [ceilEval _ 10] <;> norm_num]

lemma occupyC2 : gridC2.occupyCoordinates ⟨5, 5⟩ = Except.ok gridC2b := by
  rw [LookupGrid.occupyCoordinates]
  rw [show gridC2.assertInBounds 5 5 = Except.ok () from by
    rw [LookupGrid.assertInBounds]
    rw [if_neg (by push_neg; norm_num [gridC2])]
    rw [if_neg (by push_neg; norm_num [gridC2])]]
  have hgx : gridC2.gridX 5 = 5 := by
    rw [LookupGrid.gridX]
    show ⌊(10 : ℤ) * ((5 : ℝ) - 0) / 10⌋ = 5
    rw [floorEval _ 5] <;> norm_num
  have hgy : gridC2.gridY 5 = 5 := by
    rw [LookupGrid.gridY]
    show ⌊(10 : ℤ) * ((5 : ℝ) - 0) / 10⌋ = 5
    rw [floorEval _ 5] <;> norm_num
  dsimp only
  rw [hgx, hgy]
  rfl

lemma commitC2 : commitAll gridC2 [⟨5, 5⟩] = Except.ok gridC2b := by
  simp only [commitAll, occupyC2]

lemma nextBodyC2 : nextBody cfgC2 gridC2 itC2 = Except.ok (itC2done, gridC2b, true) := by
  show (match commitAll gridC2 [⟨5, 5⟩] with
    | Except.error e => Except.error e
    | Except.ok g2 => Except.ok (itC2done, g2, true)) =
    Except.ok (itC2done, gridC2b, true)
  rw [commitC2]

lemma nextLoopC2 : nextLoop cfgC2 3 gridC2 itC2 = Except.ok (itC2done, gridC2b, true) := by
  show nextLoop cfgC2 (Nat.succ 2) gridC2 itC2 = _
  simp only [nextLoop, nextBodyC2]

lemma initProcessingC2 : initProcessing cfgC2 3 s0C2 =
    Except.ok { s0C2 with current := itC2done, grid := gridC2b,
                          state := SState.processQueue } := by
  have hg : s0C2.grid = gridC2 := rfl
  have hc : s0C2.current = itC2 := rfl
  simp only [initProcessing, hg, hc, nextLoopC2]
  rfl

lemma schedBodyC2 : schedBody cfgC2 3 s0C2 = Except.ok s1C2 := by
  rw [schedBody, initProcessingC2]
  rfl

lemma nextStepC2 : nextStep cfgC2 3 false s0C2 = NextStepResult.resolveCrash := by
  rw [nextStep]
  show nextStepLoop cfgC2 3 false (Nat.succ 9) s0C2 = _
  simp only [nextStepLoop, schedBodyC2]
  rfl

/-- C2 counterexample: with `async` unset, the everywhere-singular field and
seed `(5, 5)` reach `DONE` inside the very first synchronous turn, and
`run()` returns the modelled `TypeError` of calling the never-assigned
promise resolver — the claim's "reaching DONE in this mode raises no error"
is false (and a longer computation would instead have been deferred through
`setTimeout`, not drained synchronously). -/
theorem c2_counterexample :
    run cfgC2 3 s0C2 = RunResult.syncReturn NextStepResult.resolveCrash := by
  rw [run, if_neg (by rw [show cfgC2.async = false from rfl]; exact Bool.false_ne_true)]
  rw [nextStepC2]

/-- C2 amended, witnessed at the concrete sync configuration. -/
theorem c2_sync_behavior_witness :
    run cfgC2 3 s0C2 = RunResult.syncReturn (nextStep cfgC2 3 false s0C2) ∧
      ∀ s2, nextStep cfgC2 3 false s0C2 ≠ NextStepResult.resolved s2 :=
  c2_sync_behavior cfgC2 3 s0C2 rfl

lemma createSharedC1 : LookupGrid.create ⟨0, 4.8, 10, 4.6⟩ (2.4 : ℝ) = sharedC1 [] := by
  rw [LookupGrid.create, sharedC1]
  rw [show max (10 : ℝ) 4.6 = 10 from max_eq_left (by norm_num)]
  rw [show (⌈(10 : ℝ) / 2.4⌉ : ℤ) = 5 from by rw [ceilEval _ 5] <;> norm_num]

lemma createOwnC1 :
    LookupGrid.create ⟨0, 4.8, 10, 4.6⟩ (cfgC1.timeStep * 0.9) = ownGC1 [] := by
  rw [LookupGrid.create, ownGC1]
  rw [show max (10 : ℝ) 4.6 = 10 from max_eq_left (by norm_num)]
  rw [show (⌈(10 : ℝ) / (cfgC1.timeStep * 0.9)⌉ : ℤ) = 3 from by
    rw [show cfgC1.timeStep = 4 from rfl]
    rw [ceilEval _ 3] <;> norm_num]

lemma integCreateC1 (v : Vec) :
    Integ.create v cfgC1 = integC1 v [v] v IState.forward (-1) [] := by
  rw [Integ.create, integC1]
  rw [show cfgC1.boundingBox = ⟨0, 4.8, 10, 4.6⟩ from rfl]
  rw [createOwnC1]

lemma nvfC1live (p : Vec) (hy : p.y = 5 ∨ p.y = 9) (hx : p.x ≤ 5) :
    normalizedVectorField cfgC1 p = some ⟨1, 0⟩ := by
  rw [normalizedVectorField]
  rw [show cfgC1.vectorField p = some ⟨1, 0⟩ from by
    rw [show cfgC1.vectorField = fieldC1 from rfl, fieldC1]
    exact if_pos ⟨hy, hx⟩]
  dsimp only
  rw [if_neg (by norm_num)]
  rw [show Real.sqrt ((1 : ℝ) * 1 + 0 * 0) = 1 from by rw [sqrtEval _ 1] <;> norm_num]
  norm_num

lemma nvfC1dead (p : Vec) (h : ¬ ((p.y = 5 ∨ p.y = 9) ∧ p.x ≤ 5)) :
    normalizedVectorField cfgC1 p = none := by
  rw [normalizedVectorField]
  rw [show cfgC1.vectorField p = none from by
    rw [show cfgC1.vectorField = fieldC1 from rfl, fieldC1]
    exact if_neg h]

lemma rk4Eval (pos : Vec) (h : ℝ) (f : Vec → Option Vec) (v : Vec)
    (h1 : f pos = some v)
    (h2 : f (pos.add (v.mulScalar (h / 2))) = some v)
    (h3 : f (pos.add (v.mulScalar h)) = some v) :
    rk4 pos h f = some (v.mulScalar h) := by
  rw [rk4, h1]
  dsimp only
  rw [h2]
  dsimp only
  rw [h2]
  dsimp only
  rw [h3]
  dsimp only
  rw [Option.some_inj]
  show (((v.add (v.mulScalar 2)).add ((v.mulScalar 2).add v)).mulScalar (h / 6)) = _
  simp only [Vec.add, Vec.mulScalar, Vec.mk.injEq]
  constructor <;> ring

lemma rk4Fail1 (pos : Vec) (h : ℝ) (f : Vec → Option Vec)
    (h1 : f pos = none) : rk4 pos h f = none := by
  rw [rk4, h1]

lemma rk4Fail2 (pos : Vec) (h : ℝ) (f : Vec → Option Vec) (v : Vec)
    (h1 : f pos = some v)
    (h2 : f (pos.add (v.mulScalar (h / 2))) = none) : rk4 pos h f = none := by
  rw [rk4, h1]
  dsimp only
  rw [h2]

lemma gxC1_1 (cs : List (ℤ × List (ℤ × Cell))) : (sharedC1 cs).gridX 1 = 0 := by
  rw [LookupGrid.gridX]
  show ⌊((5 : ℤ) : ℝ) * ((1 : ℝ) - 0) / 10⌋ = 0
  rw [floorEval _ 0] <;> norm_num

lemma gxC1_5 (cs : List (ℤ × List (ℤ × Cell))) : (sharedC1 cs).gridX 5 = 2 := by
  rw [LookupGrid.gridX]
  show ⌊((5 : ℤ) : ℝ) * ((5 : ℝ) - 0) / 10⌋ = 2
  rw [floorEval _ 2] <;> norm_num

lemma gyC1_5 (cs : List (ℤ × List (ℤ × Cell))) : (sharedC1 cs).gridY 5 = 0 := by
  rw [LookupGrid.gridY]
  show ⌊((5 : ℤ) : ℝ) * ((5 : ℝ) - 4.8) / 10⌋ = 0
  rw [floorEval _ 0] <;> norm_num

lemma gyC1_9 (cs : List (ℤ × List (ℤ × Cell))) : (sharedC1 cs).gridY 9 = 2 := by
  rw [LookupGrid.gridY]
  show ⌊((5 : ℤ) : ℝ) * ((9 : ℝ) - 4.8) / 10⌋ = 2
  rw [floorEval _ 2] <;> norm_num

lemma gyC1_74 (cs : List (ℤ × List (ℤ × Cell))) : (sharedC1 cs).gridY 7.4 = 1 := by
  rw [LookupGrid.gridY]
  show ⌊((5 : ℤ) : ℝ) * ((7.4 : ℝ) - 4.8) / 10⌋ = 1
  rw [floorEval _ 1] <;> norm_num

lemma gyC1_66 (cs : List (ℤ × List (ℤ × Cell))) : (sharedC1 cs).gridY 6.6 = 0 := by
  rw [LookupGrid.gridY]
  show ⌊((5 : ℤ) : ℝ) * ((6.6 : ℝ) - 4.8) / 10⌋ = 0
  rw [floorEval _ 0] <;> norm_num

lemma gxOwnC1_5 (cs : List (ℤ × List (ℤ × Cell))) : (ownGC1 cs).gridX 5 = 1 := by
  rw [LookupGrid.gridX]
  show ⌊((3 : ℤ) : ℝ) * ((5 : ℝ) - 0) / 10⌋ = 1
  rw [floorEval _ 1] <;> norm_num

lemma gyOwnC1_5 (cs : List (ℤ × List (ℤ × Cell))) : (ownGC1 cs).gridY 5 = 0 := by
  rw [LookupGrid.gridY]
  show ⌊((3 : ℤ) : ℝ) * ((5 : ℝ) - 4.8) / 10⌋ = 0
  rw [floorEval _ 0] <;> norm_num

lemma gyOwnC1_9 (cs : List (ℤ × List (ℤ × Cell))) : (ownGC1 cs).gridY 9 = 1 := by
  rw [LookupGrid.gridY]
  show ⌊((3 : ℤ) : ℝ) * ((9 : ℝ) - 4.8) / 10⌋ = 1
  rw [floorEval _ 1] <;> norm_num

lemma growI1a : growForward cfgC1 (sharedC1 []) i1sC1 = some ⟨5, 5⟩ := by
  have hpos : i1sC1.pos = ⟨1, 5⟩ := rfl
  have hown : i1sC1.ownGrid = ownGC1 [] := rfl
  have hts : cfgC1.timeStep = 4 := rfl
  have hr : rk4 (⟨1, 5⟩ : Vec) cfgC1.timeStep (normalizedVectorField cfgC1) =
      some (Vec.mulScalar ⟨1, 0⟩ cfgC1.timeStep) := by
    refine rk4Eval _ _ _ _ (nvfC1live _ (Or.inl rfl) (by norm_num)) ?_ ?_
    · refine nvfC1live _ (Or.inl ?_) ?_
      · show (5 : ℝ) + 0 * (cfgC1.timeStep / 2) = 5
        norm_num
      · show (1 : ℝ) + 1 * (cfgC1.timeStep / 2) ≤ 5
        rw [hts]
        norm_num
    · refine nvfC1live _ (Or.inl ?_) ?_
      · show (5 : ℝ) + 0 * cfgC1.timeStep = 5
        norm_num
      · show (1 : ℝ) + 1 * cfgC1.timeStep ≤ 5
        rw [hts]
        norm_num
  rw [growForward, hpos, hown, hr]
  dsimp only
  rw [show Vec.mulScalar ⟨1, 0⟩ cfgC1.timeStep = (⟨4, 0⟩ : Vec) from by
    rw [hts]
    simp only [Vec.mulScalar, Vec.mk.injEq]
    norm_num]
  rw [growByVelocity]
  rw [show (⟨1, 5⟩ : Vec).add ⟨4, 0⟩ = ⟨5, 5⟩ from by
    simp only [Vec.add, Vec.mk.injEq]
    norm_num]
  rw [if_neg (by rw [LookupGrid.isOutside]; push_neg; norm_num [sharedC1])]
  rw [if_neg (isTakenEmpty (sharedC1 []) rfl _ _ _)]
  rw [if_neg (isTakenEmpty (ownGC1 []) rfl _ _ _)]

lemma growI1b : growForward cfgC1 (sharedC1 []) i1mC1 = none := by
  have hpos : i1mC1.pos = ⟨5, 5⟩ := rfl
  have hts : cfgC1.timeStep = 4 := rfl
  have hr : rk4 (⟨5, 5⟩ : Vec) cfgC1.timeStep (normalizedVectorField cfgC1) = none := by
    refine rk4Fail2 _ _ _ ⟨1, 0⟩ (nvfC1live _ (Or.inl rfl) (by norm_num)) ?_
    refine nvfC1dead _ ?_
    intro hcon
    have h2 := hcon.2
    revert h2
    show ¬ (5 : ℝ) + 1 * (cfgC1.timeStep / 2) ≤ 5
    rw [hts]
    norm_num
  rw [growForward, hpos, hr]

lemma growI2a : growForward cfgC1 (sharedC1 g1C1) i2sC1 = some ⟨5, 9⟩ := by
  have hpos : i2sC1.pos = ⟨1, 9⟩ := rfl
  have hown : i2sC1.ownGrid = ownGC1 [] := rfl
  have hts : cfgC1.timeStep = 4 := rfl
  have hr : rk4 (⟨1, 9⟩ : Vec) cfgC1.timeStep (normalizedVectorField cfgC1) =
      some (Vec.mulScalar ⟨1, 0⟩ cfgC1.timeStep) := by
    refine rk4Eval _ _ _ _ (nvfC1live _ (Or.inr rfl) (by norm_num)) ?_ ?_
    · refine nvfC1live _ (Or.inr ?_) ?_
      · show (9 : ℝ) + 0 * (cfgC1.timeStep / 2) = 9
        norm_num
      · show (1 : ℝ) + 1 * (cfgC1.timeStep / 2) ≤ 5
        rw [hts]
        norm_num
    · refine nvfC1live _ (Or.inr ?_) ?_
      · show (9 : ℝ) + 0 * cfgC1.timeStep = 9
        norm_num
      · show (1 : ℝ) + 1 * cfgC1.timeStep ≤ 5
        rw [hts]
        norm_num
  have hnt : ¬ (sharedC1 g1C1).isTaken 5 9 (fun d _ => checkDTest cfgC1 d) := by
    rintro ⟨col, hcol, row, hrow, _, _, _, _, c, hc, -⟩
    rw [gxC1_5, gyC1_9] at hc
    fin_cases hcol <;> fin_cases hrow <;> exact Option.noConfusion hc
  rw [growForward, hpos, hown, hr]
  dsimp only
  rw [show Vec.mulScalar ⟨1, 0⟩ cfgC1.timeStep = (⟨4, 0⟩ : Vec) from by
    rw [hts]
    simp only [Vec.mulScalar, Vec.mk.injEq]
    norm_num]
  rw [growByVelocity]
  rw [show (⟨1, 9⟩ : Vec).add ⟨4, 0⟩ = ⟨5, 9⟩ from by
    simp only [Vec.add, Vec.mk.injEq]
    norm_num]
  rw [if_neg (by rw [LookupGrid.isOutside]; push_neg; norm_num [sharedC1])]
  rw [if_neg hnt]
  rw [if_neg (isTakenEmpty (ownGC1 []) rfl _ _ _)]

lemma growI2b : growForward cfgC1 (sharedC1 g1C1) i2mC1 = none := by
  have hpos : i2mC1.pos = ⟨5, 9⟩ := rfl
  have hts : cfgC1.timeStep = 4 := rfl
  have hr : rk4 (⟨5, 9⟩ : Vec) cfgC1.timeStep (normalizedVectorField cfgC1) = none := by
    refine rk4Fail2 _ _ _ ⟨1, 0⟩ (nvfC1live _ (Or.inr rfl) (by norm_num)) ?_
    refine nvfC1dead _ ?_
    intro hcon
    have h2 := hcon.2
    revert h2
    show ¬ (5 : ℝ) + 1 * (cfgC1.timeStep / 2) ≤ 5
    rw [hts]
    norm_num
  rw [growForward, hpos, hr]

lemma occOwn1C1 : (ownGC1 []).occupyCoordinates ⟨5, 5⟩ = Except.ok (ownGC1 own1C1) := by
  rw [LookupGrid.occupyCoordinates]
  rw [show (ownGC1 []).assertInBounds 5 5 = Except.ok () from by
    rw [LookupGrid.assertInBounds]
    rw [if_neg (by push_neg; norm_num [ownGC1])]
    rw [if_neg (by push_neg; norm_num [ownGC1])]]
  dsimp only
  rw [gxOwnC1_5, gyOwnC1_5]
  rfl

lemma occOwn2C1 : (ownGC1 []).occupyCoordinates ⟨5, 9⟩ = Except.ok (ownGC1 own2C1) := by
  rw [LookupGrid.occupyCoordinates]
  rw [show (ownGC1 []).assertInBounds 5 9 = Except.ok () from by
    rw [LookupGrid.assertInBounds]
    rw [if_neg (by push_neg; norm_num [ownGC1])]
    rw [if_neg (by push_neg; norm_num [ownGC1])]]
  dsimp only
  rw [gxOwnC1_5, gyOwnC1_9]
  rfl

lemma occS1aC1 : (sharedC1 []).occupyCoordinates ⟨1, 5⟩ =
    Except.ok (sharedC1 [(0, [(0, [⟨1, 5⟩])])]) := by
  rw [LookupGrid.occupyCoordinates]
  rw [show (sharedC1 []).assertInBounds 1 5 = Except.ok () from by
    rw [LookupGrid.assertInBounds]
    rw [if_neg (by push_neg; norm_num [sharedC1])]
    rw [if_neg (by push_neg; norm_num [sharedC1])]]
  dsimp only
  rw [gxC1_1, gyC1_5]
  rfl

lemma occS1bC1 : (sharedC1 [(0, [(0, [⟨1, 5⟩])])]).occupyCoordinates ⟨5, 5⟩ =
    Except.ok (sharedC1 g1C1) := by
  rw [LookupGrid.occupyCoordinates]
  rw [show (sharedC1 [(0, [(0, [⟨1, 5⟩])])]).assertInBounds 5 5 = Except.ok () from by
    rw [LookupGrid.assertInBounds]
    rw [if_neg (by push_neg; norm_num [sharedC1])]
    rw [if_neg (by push_neg; norm_num [sharedC1])]]
  dsimp only
  rw [gxC1_5, gyC1_5]
  rfl

lemma commit1C1 : commitAll (sharedC1 []) [⟨1, 5⟩, ⟨5, 5⟩] = Except.ok (sharedC1 g1C1) := by
  simp only [commitAll, occS1aC1, occS1bC1]

lemma occS2aC1 : (sharedC1 g1C1).occupyCoordinates ⟨1, 9⟩ =
    Except.ok (sharedC1 g1bC1) := by
  rw [LookupGrid.occupyCoordinates]
  rw [show (sharedC1 g1C1).assertInBounds 1 9 = Except.ok () from by
    rw [LookupGrid.assertInBounds]
    rw [if_neg (by push_neg; norm_num [sharedC1])]
    rw [if_neg (by push_neg; norm_num [sharedC1])]]
  dsimp only
  rw [gxC1_1, gyC1_9]
  rfl

lemma occS2bC1 : (sharedC1 g1bC1).occupyCoordinates ⟨5, 9⟩ =
    Except.ok (sharedC1 g2C1) := by
  rw [LookupGrid.occupyCoordinates]
  rw [show (sharedC1 g1bC1).assertInBounds 5 9 = Except.ok () from by
    rw [LookupGrid.assertInBounds]
    rw [if_neg (by push_neg; norm_num [sharedC1])]
    rw [if_neg (by push_neg; norm_num [sharedC1])]]
  dsimp only
  rw [gxC1_5, gyC1_9]
  rfl

lemma commit2C1 : commitAll (sharedC1 g1C1) [⟨1, 9⟩, ⟨5, 9⟩] =
    Except.ok (sharedC1 g2C1) := by
  simp only [commitAll, occS2aC1, occS2bC1]

lemma notTakenSeedAC1 : ¬ (sharedC1 g1C1).isTaken 1 9 (fun d _ => checkDSep cfgC1 d) := by
  rintro ⟨col, hcol, row, hrow, _, _, _, _, c, hc, -⟩
  rw [gxC1_1, gyC1_9] at hc
  fin_cases hcol <;> fin_cases hrow <;> exact Option.noConfusion hc

lemma dist16 (y1 y2 : ℝ) (h : y1 - y2 = 1.6 ∨ y2 - y1 = 1.6) (x : ℝ) :
    Real.sqrt ((x - x) * (x - x) + (y1 - y2) * (y1 - y2)) = 1.6 := by
  rw [sqrtEval _ 1.6]
  · norm_num
  · rcases h with h | h <;> nlinarith [h]

lemma chkDSep16 : checkDSep cfgC1 1.6 := by
  constructor
  · show ¬ |(1.6 : ℝ) - cfgC1.dSep| < 1e-4
    rw [show cfgC1.dSep = 2.4 from rfl, abs_sub_lt_iff]
    norm_num
  · show (1.6 : ℝ) < cfgC1.dSep
    rw [show cfgC1.dSep = 2.4 from rfl]
    norm_num

lemma takenB1C1 : (sharedC1 g2C1).isTaken 1 7.4 (fun d _ => checkDSep cfgC1 d) := by
  refine ⟨0, by decide, 1, by decide, ?_⟩
  rw [gxC1_1, gyC1_74]
  refine ⟨by norm_num, by norm_num [sharedC1], by norm_num, by norm_num [sharedC1],
    [⟨1, 9⟩], rfl, ⟨1, 9⟩, List.mem_singleton.mpr rfl, ?_⟩
  show checkDSep cfgC1 (Real.sqrt ((1 - 1) * (1 - 1) + (9 - 7.4) * (9 - 7.4)))
  rw [dist16 9 7.4 (Or.inl (by norm_num)) 1]
  exact chkDSep16

lemma takenB2C1 : (sharedC1 g2C1).isTaken 5 7.4 (fun d _ => checkDSep cfgC1 d) := by
  refine ⟨0, by decide, 1, by decide, ?_⟩
  rw [gxC1_5, gyC1_74]
  refine ⟨by norm_num, by norm_num [sharedC1], by norm_num, by norm_num [sharedC1],
    [⟨5, 9⟩], rfl, ⟨5, 9⟩, List.mem_singleton.mpr rfl, ?_⟩
  show checkDSep cfgC1 (Real.sqrt ((5 - 5) * (5 - 5) + (9 - 7.4) * (9 - 7.4)))
  rw [dist16 9 7.4 (Or.inl (by norm_num)) 5]
  exact chkDSep16

lemma takenB3C1 : (sharedC1 g2C1).isTaken 1 6.6 (fun d _ => checkDSep cfgC1 d) := by
  refine ⟨0, by decide, 0, by decide, ?_⟩
  rw [gxC1_1, gyC1_66]
  refine ⟨by norm_num, by norm_num [sharedC1], by norm_num, by norm_num [sharedC1],
    [⟨1, 5⟩], rfl, ⟨1, 5⟩, List.mem_singleton.mpr rfl, ?_⟩
  show checkDSep cfgC1 (Real.sqrt ((1 - 1) * (1 - 1) + (5 - 6.6) * (5 - 6.6)))
  rw [dist16 5 6.6 (Or.inr (by norm_num)) 1]
  exact chkDSep16

lemma takenB4C1 : (sharedC1 g2C1).isTaken 5 6.6 (fun d _ => checkDSep cfgC1 d) := by
  refine ⟨0, by decide, 0, by decide, ?_⟩
  rw [gxC1_5, gyC1_66]
  refine ⟨by norm_num, by norm_num [sharedC1], by norm_num, by norm_num [sharedC1],
    [⟨5, 5⟩], rfl, ⟨5, 5⟩, List.mem_singleton.mpr rfl, ?_⟩
  show checkDSep cfgC1 (Real.sqrt ((5 - 5) * (5 - 5) + (5 - 6.6) * (5 - 6.6)))
  rw [dist16 5 6.6 (Or.inr (by norm_num)) 5]
  exact chkDSep16

lemma scanAC1 : seedScan cfgC1 (sharedC1 g1C1) [⟨1, 5⟩, ⟨5, 5⟩] (-1) [⟨1, 9⟩] =
    (some ⟨1, 9⟩, -1, []) := by
  have hnv := nvfC1live (⟨1, 5⟩ : Vec) (Or.inl rfl) (by norm_num)
  have ho : ¬ (sharedC1 g1C1).isOutside 1 9 := by
    rw [LookupGrid.isOutside]
    push_neg
    norm_num [sharedC1]
  simp only [seedScan, hnv]
  rw [if_pos ⟨ho, notTakenSeedAC1⟩]
  norm_num

lemma scanBC1 : seedScan cfgC1 (sharedC1 g2C1) [⟨1, 5⟩, ⟨5, 5⟩] (-1) [] =
    (none, 1, []) := by
  have hnv1 := nvfC1live (⟨1, 5⟩ : Vec) (Or.inl rfl) (by norm_num)
  have hnv2 := nvfC1live (⟨5, 5⟩ : Vec) (Or.inl rfl) (by norm_num)
  have hds : cfgC1.dSep = 2.4 := rfl
  have ht1 : (sharedC1 g2C1).isTaken (1 - 0 * cfgC1.dSep) (5 + 1 * cfgC1.dSep)
      (fun d _ => checkDSep cfgC1 d) := by
    rw [show (1 - 0 * cfgC1.dSep : ℝ) = 1 from by rw [hds]; norm_num,
        show (5 + 1 * cfgC1.dSep : ℝ) = 7.4 from by rw [hds]; norm_num]
    exact takenB1C1
  have ho1 : (sharedC1 g2C1).isOutside (1 + 0 * cfgC1.dSep) (5 - 1 * cfgC1.dSep) := by
    rw [LookupGrid.isOutside]
    refine Or.inr (Or.inr (Or.inl ?_))
    show (5 : ℝ) - 1 * cfgC1.dSep < 4.8
    rw [hds]
    norm_num
  have ht2 : (sharedC1 g2C1).isTaken (5 - 0 * cfgC1.dSep) (5 + 1 * cfgC1.dSep)
      (fun d _ => checkDSep cfgC1 d) := by
    rw [show (5 - 0 * cfgC1.dSep : ℝ) = 5 from by rw [hds]; norm_num,
        show (5 + 1 * cfgC1.dSep : ℝ) = 7.4 from by rw [hds]; norm_num]
    exact takenB2C1
  have ho2 : (sharedC1 g2C1).isOutside (5 + 0 * cfgC1.dSep) (5 - 1 * cfgC1.dSep) := by
    rw [LookupGrid.isOutside]
    refine Or.inr (Or.inr (Or.inl ?_))
    show (5 : ℝ) - 1 * cfgC1.dSep < 4.8
    rw [hds]
    norm_num
  simp only [seedScan, hnv1]
  rw [if_neg (fun hcon => hcon.2 ht1)]
  rw [if_neg (fun hcon => hcon.1 ho1)]
  simp only [seedScan, hnv2]
  rw [if_neg (fun hcon => hcon.2 ht2)]
  rw [if_neg (fun hcon => hcon.1 ho2)]
  norm_num

lemma scanCC1 : seedScan cfgC1 (sharedC1 g2C1) [⟨1, 9⟩, ⟨5, 9⟩] (-1) [] =
    (none, 1, []) := by
  have hnv1 := nvfC1live (⟨1, 9⟩ : Vec) (Or.inr rfl) (by norm_num)
  have hnv2 := nvfC1live (⟨5, 9⟩ : Vec) (Or.inr rfl) (by norm_num)
  have hds : cfgC1.dSep = 2.4 := rfl
  have ho1 : (sharedC1 g2C1).isOutside (1 - 0 * cfgC1.dSep) (9 + 1 * cfgC1.dSep) := by
    rw [LookupGrid.isOutside]
    refine Or.inr (Or.inr (Or.inr ?_))
    show (9 : ℝ) + 1 * cfgC1.dSep > 4.8 + 4.6
    rw [hds]
    norm_num
  have ht1 : (sharedC1 g2C1).isTaken (1 + 0 * cfgC1.dSep) (9 - 1 * cfgC1.dSep)
      (fun d _ => checkDSep cfgC1 d) := by
    rw [show (1 + 0 * cfgC1.dSep : ℝ) = 1 from by rw [hds]; norm_num,
        show (9 - 1 * cfgC1.dSep : ℝ) = 6.6 from by rw [hds]; norm_num]
    exact takenB3C1
  have ho2 : (sharedC1 g2C1).isOutside (5 - 0 * cfgC1.dSep) (9 + 1 * cfgC1.dSep) := by
    rw [LookupGrid.isOutside]
    refine Or.inr (Or.inr (Or.inr ?_))
    show (9 : ℝ) + 1 * cfgC1.dSep > 4.8 + 4.6
    rw [hds]
    norm_num
  have ht2 : (sharedC1 g2C1).isTaken (5 + 0 * cfgC1.dSep) (9 - 1 * cfgC1.dSep)
      (fun d _ => checkDSep cfgC1 d) := by
    rw [show (5 + 0 * cfgC1.dSep : ℝ) = 5 from by rw [hds]; norm_num,
        show (9 - 1 * cfgC1.dSep : ℝ) = 6.6 from by rw [hds]; norm_num]
    exact takenB4C1
  simp only [seedScan, hnv1]
  rw [if_neg (fun hcon => hcon.1 ho1)]
  rw [if_neg (fun hcon => hcon.2 ht1)]
  simp only [seedScan, hnv2]
  rw [if_neg (fun hcon => hcon.1 ho2)]
  rw [if_neg (fun hcon => hcon.2 ht2)]
  norm_num

lemma nbI1aC1 : nextBody cfgC1 (sharedC1 []) i1sC1 =
    Except.ok (i1mC1, sharedC1 [], false) := by
  have h0 : i1sC1.ownGrid = ownGC1 [] := rfl
  simp only [nextBody, growI1a, h0, occOwn1C1]
  rfl

lemma nbI1bC1 : nextBody cfgC1 (sharedC1 []) i1mC1 =
    Except.ok (i1dC1, sharedC1 g1C1, true) := by
  simp only [nextBody, growI1b]
  show (match commitAll (sharedC1 []) [(⟨1, 5⟩ : Vec), ⟨5, 5⟩] with
    | Except.error e => Except.error e
    | Except.ok g2 => Except.ok (i1dC1, g2, true)) =
    Except.ok (i1dC1, sharedC1 g1C1, true)
  rw [commit1C1]

lemma nlI1C1 : nextLoop cfgC1 3 (sharedC1 []) i1sC1 =
    Except.ok (i1dC1, sharedC1 g1C1, true) := by
  show nextLoop cfgC1 (Nat.succ 2) (sharedC1 []) i1sC1 = _
  simp only [nextLoop, nbI1aC1]
  show nextLoop cfgC1 (Nat.succ 1) (sharedC1 []) i1mC1 = _
  simp only [nextLoop, nbI1bC1]

lemma nbI2aC1 : nextBody cfgC1 (sharedC1 g1C1) i2sC1 =
    Except.ok (i2mC1, sharedC1 g1C1, false) := by
  have h0 : i2sC1.ownGrid = ownGC1 [] := rfl
  simp only [nextBody, growI2a, h0, occOwn2C1]
  rfl

lemma nbI2bC1 : nextBody cfgC1 (sharedC1 g1C1) i2mC1 =
    Except.ok (i2dC1, sharedC1 g2C1, true) := by
  simp only [nextBody, growI2b]
  show (match commitAll (sharedC1 g1C1) [(⟨1, 9⟩ : Vec), ⟨5, 9⟩] with
    | Except.error e => Except.error e
    | Except.ok g2 => Except.ok (i2dC1, g2, true)) =
    Except.ok (i2dC1, sharedC1 g2C1, true)
  rw [commit2C1]

lemma nlI2C1 : nextLoop cfgC1 3 (sharedC1 g1C1) i2sC1 =
    Except.ok (i2dC1, sharedC1 g2C1, true) := by
  show nextLoop cfgC1 (Nat.succ 2) (sharedC1 g1C1) i2sC1 = _
  simp only [nextLoop, nbI2aC1]
  show nextLoop cfgC1 (Nat.succ 1) (sharedC1 g1C1) i2mC1 = _
  simp only [nextLoop, nbI2bC1]

lemma schedBodyEval (cfg : Config) (nf : ℕ) (s a b c d : SchedState)
    (h1 : (if s.state = SState.init then initProcessing cfg nf s else pure s) =
      Except.ok a)
    (h2 : (if a.state = SState.streamline then continueStreamline cfg nf a
      else pure a) = Except.ok b)
    (h3 : (if b.state = SState.processQueue then processQueue b else b) = c)
    (h4 : (if c.state = SState.seedStreamline then seedStreamlineStep cfg c
      else pure c) = Except.ok d) :
    schedBody cfg nf s = Except.ok d := by
  rw [schedBody, h1]
  simp only [exceptBindOk]
  rw [h2]
  simp only [exceptBindOk]
  rw [h3]
  exact h4

lemma ipC1 : initProcessing cfgC1 3 s0C1 = Except.ok sMidC1 := by
  have hg : s0C1.grid = sharedC1 [] := rfl
  have hc : s0C1.current = i1sC1 := rfl
  simp only [initProcessing, hg, hc, nlI1C1]
  rfl

lemma seedCallAC1 : seedStreamlineStep cfgC1 sSeedC1 = Except.ok s1C1 := by
  have hq : sSeedC1.queue = [i1dC1] := rfl
  have hgv : getNextValidSeed cfgC1 sSeedC1.grid i1dC1 sSeedC1.seedArray =
      (some ⟨1, 9⟩, i1dC1, []) := by
    rw [getNextValidSeed]
    rw [show sSeedC1.grid = sharedC1 g1C1 from rfl,
        show sSeedC1.seedArray = [⟨1, 9⟩] from rfl,
        show i1dC1.points = [⟨1, 5⟩, ⟨5, 5⟩] from rfl,
        show i1dC1.lastCheckedSeed = -1 from rfl]
    rw [show ((-1 : ℤ) + 1).toNat = 0 from rfl, List.drop_zero, scanAC1]
    rfl
  simp only [seedStreamlineStep, hq, hgv]
  rw [integCreateC1]
  rfl

lemma sb1C1 : schedBody cfgC1 3 s0C1 = Except.ok s1C1 :=
  schedBodyEval cfgC1 3 s0C1 sMidC1 sMidC1 sSeedC1 s1C1 ipC1 rfl rfl seedCallAC1

lemma csC1 : continueStreamline cfgC1 3 s1C1 = Except.ok sSeed2C1 := by
  have hg : s1C1.grid = sharedC1 g1C1 := rfl
  have hc : s1C1.current = i2sC1 := rfl
  simp only [continueStreamline, hg, hc, nlI2C1]
  rfl

lemma seedCallBC1 : seedStreamlineStep cfgC1 sSeed2C1 = Except.ok s2C1 := by
  have hq : sSeed2C1.queue = [i1dC1, i2dC1] := rfl
  have hgv : getNextValidSeed cfgC1 sSeed2C1.grid i1dC1 sSeed2C1.seedArray =
      (none, { i1dC1 with lastCheckedSeed := 1 }, []) := by
    rw [getNextValidSeed]
    rw [show sSeed2C1.grid = sharedC1 g2C1 from rfl,
        show sSeed2C1.seedArray = [] from rfl,
        show i1dC1.points = [⟨1, 5⟩, ⟨5, 5⟩] from rfl,
        show i1dC1.lastCheckedSeed = -1 from rfl]
    rw [show ((-1 : ℤ) + 1).toNat = 0 from rfl, List.drop_zero, scanBC1]
    rfl
  simp only [seedStreamlineStep, hq, hgv]
  rfl

lemma sb2C1 : schedBody cfgC1 3 s1C1 = Except.ok s2C1 :=
  schedBodyEval cfgC1 3 s1C1 s1C1 sSeed2C1 sSeed2C1 s2C1 rfl csC1 rfl seedCallBC1

lemma seedCallCC1 : seedStreamlineStep cfgC1 sSeed3C1 = Except.ok s3C1 := by
  have hq : sSeed3C1.queue = [i2dC1] := rfl
  have hgv : getNextValidSeed cfgC1 sSeed3C1.grid i2dC1 sSeed3C1.seedArray =
      (none, { i2dC1 with lastCheckedSeed := 1 }, []) := by
    rw [getNextValidSeed]
    rw [show sSeed3C1.grid = sharedC1 g2C1 from rfl,
        show sSeed3C1.seedArray = [] from rfl,
        show i2dC1.points = [⟨1, 9⟩, ⟨5, 9⟩] from rfl,
        show i2dC1.lastCheckedSeed = -1 from rfl]
    rw [show ((-1 : ℤ) + 1).toNat = 0 from rfl, List.drop_zero, scanCC1]
    rfl
  simp only [seedStreamlineStep, hq, hgv]
  rfl

lemma sb3C1 : schedBody cfgC1 3 s2C1 = Except.ok s3C1 :=
  schedBodyEval cfgC1 3 s2C1 s2C1 s2C1 sSeed3C1 s3C1 rfl rfl rfl seedCallCC1

lemma sb4C1 : schedBody cfgC1 3 s3C1 = Except.ok s4C1 :=
  schedBodyEval cfgC1 3 s3C1 s3C1 s3C1 s4C1 s4C1 rfl rfl rfl rfl

lemma driveStep (cfg : Config) (nf n : ℕ) (s s2 : SchedState)
    (hnd : ¬ s.state = SState.done) (hsb : schedBody cfg nf s = Except.ok s2) :
    drive cfg nf (Nat.succ n) s = drive cfg nf n s2 := by
  simp only [drive, hsb, if_neg hnd]

lemma driveDone (cfg : Config) (nf n : ℕ) (s : SchedState)
    (hd : s.state = SState.done) :
    drive cfg nf (Nat.succ n) s = Except.ok s := by
  simp only [drive, if_pos hd]

lemma driveC1run : drive cfgC1 3 6 s0C1 = Except.ok s4C1 := by
  rw [show (6 : ℕ) = Nat.succ 5 from rfl,
    driveStep cfgC1 3 5 s0C1 s1C1 (fun hcon => SState.noConfusion hcon) sb1C1]
  rw [show (5 : ℕ) = Nat.succ 4 from rfl,
    driveStep cfgC1 3 4 s1C1 s2C1 (fun hcon => SState.noConfusion hcon) sb2C1]
  rw [show (4 : ℕ) = Nat.succ 3 from rfl,
    driveStep cfgC1 3 3 s2C1 s3C1 (fun hcon => SState.noConfusion hcon) sb3C1]
  rw [show (3 : ℕ) = Nat.succ 2 from rfl,
    driveStep cfgC1 3 2 s3C1 s4C1 (fun hcon => SState.noConfusion hcon) sb4C1]
  rw [show (2 : ℕ) = Nat.succ 1 from rfl, driveDone cfgC1 3 1 s4C1 rfl]

lemma mkC1 : mkStreamlines protoC1 =
    Except.ok ⟨cfgC1, s0C1, false⟩ := by
  have h : mkStreamlines protoC1 =
      Except.ok { cfg := cfgC1
                  s0 := { state := SState.init
                          grid := LookupGrid.create ⟨0, 4.8, 10, 4.6⟩ (2.4 : ℝ)
                          current := Integ.create ⟨1, 5⟩ cfgC1
                          queue := []
                          emitted := []
                          seedArray := [⟨1, 9⟩] }
                  warnedDefaultBox := false } := by
    rw [mkStreamlines]
    norm_num [protoC1, normalizeBoundingBox, assertNumber, cfgC1]
  rw [h, createSharedC1, integCreateC1]
  rfl

/-- C1 counterexample: the run constructed from `protoC1` completes (state
`DONE` with fuel to spare), emits the two distinct streamlines
`[(1,5), (5,5)]` and `[(1,9), (5,9)]`, yet their accepted points `(5,5)` and
`(5,9)` are at distance `4 < dTest − 1e-4 = 4.4999`: with `dSep = 2.4` the
shared grid's cell width is `10/5 = 2`, so the 3×3 `isTaken` scan around a
candidate never reaches the other streamline two cell-rows away, and the
claimed cross-streamline separation invariant fails. -/
theorem c1_counterexample :
    mkStreamlines protoC1 = Except.ok ⟨cfgC1, s0C1, false⟩ ∧
    drive cfgC1 3 6 s0C1 = Except.ok s4C1 ∧
    s4C1.state = SState.done ∧
    s4C1.emitted = [[⟨1, 5⟩, ⟨5, 5⟩], [⟨1, 9⟩, ⟨5, 9⟩]] ∧
    (⟨5, 5⟩ : Vec) ∈ [(⟨1, 5⟩ : Vec), ⟨5, 5⟩] ∧
    (⟨5, 9⟩ : Vec) ∈ [(⟨1, 9⟩ : Vec), ⟨5, 9⟩] ∧
    Vec.distanceTo ⟨5, 5⟩ ⟨5, 9⟩ < cfgC1.dTest - 1e-4 := by
  refine ⟨mkC1, driveC1run, rfl, rfl, ?_, ?_, ?_⟩
  · exact List.mem_cons_of_mem _ (List.mem_singleton.mpr rfl)
  · exact List.mem_cons_of_mem _ (List.mem_singleton.mpr rfl)
  · rw [Vec.distanceTo]
    rw [show ((⟨5, 9⟩ : Vec).x - (⟨5, 5⟩ : Vec).x) * ((⟨5, 9⟩ : Vec).x - (⟨5, 5⟩ : Vec).x) +
        ((⟨5, 9⟩ : Vec).y - (⟨5, 5⟩ : Vec).y) * ((⟨5, 9⟩ : Vec).y - (⟨5, 5⟩ : Vec).y) =
        (16 : ℝ) from by norm_num]
    rw [sqrtEval 16 4 (by norm_num) (by norm_num)]
    rw [show cfgC1.dTest = 4.5 from rfl]
    norm_num

/-- C1 amended: the separation that `growByVelocity` actually enforces is
local to the 3×3 neighbourhood the `isTaken` scan visits.  Whenever a
candidate point `c` is accepted, every point `p` stored in a cell whose
indices are within one step of `c`'s cell (and inside `[0, cellsCount)` on
both axes) satisfies `distance(c, p) ≥ dTest − 1e-4`.  No guarantee extends
to points in cells the scan does not visit, as `c1_counterexample` shows. -/
theorem c1_scanned_separation (cfg : Config) (grid own : LookupGrid)
    (pos vel c : Vec)
    (hgrow : growByVelocity cfg grid own pos vel = some c)
    (col row : ℤ) (hcol : col ∈ ([-1, 0, 1] : List ℤ))
    (hrow : row ∈ ([-1, 0, 1] : List ℤ))
    (hx0 : 0 ≤ grid.gridX c.x + col)
    (hx1 : grid.gridX c.x + col < grid.cellsCount)
    (hy0 : 0 ≤ grid.gridY c.y + row)
    (hy1 : grid.gridY c.y + row < grid.cellsCount)
    (ch : Cell)
    (hcell : cellAt grid (grid.gridX c.x + col) (grid.gridY c.y + row) = some ch)
    (p : Vec) (hp : p ∈ ch) :
    cfg.dTest - 1e-4 ≤ Vec.distanceTo c p := by
  by_contra hlt
  push_neg at hlt
  have hd : Vec.distanceTo c p =
      Real.sqrt ((p.x - c.x) * (p.x - c.x) + (p.y - c.y) * (p.y - c.y)) := rfl
  have hchk : checkDTest cfg
      (Real.sqrt ((p.x - c.x) * (p.x - c.x) + (p.y - c.y) * (p.y - c.y))) := by
    rw [← hd]
    constructor
    · intro hsame
      rw [isSame, abs_sub_lt_iff] at hsame
      have h2 := hsame.2
      linarith
    · linarith [show (0 : ℝ) < 1e-4 from by norm_num]
  have htaken : grid.isTaken c.x c.y (fun d _ => checkDTest cfg d) :=
    ⟨col, hcol, row, hrow, hx0, hx1, hy0, hy1, ch, hcell, p, hp, hchk⟩
  simp only [growByVelocity] at hgrow
  by_cases h1 : grid.isOutside (pos.add vel).x (pos.add vel).y
  · rw [if_pos h1] at hgrow
    exact Option.noConfusion hgrow
  rw [if_neg h1] at hgrow
  by_cases h2 : grid.isTaken (pos.add vel).x (pos.add vel).y
      (fun d _ => checkDTest cfg d)
  · rw [if_pos h2] at hgrow
    exact Option.noConfusion hgrow
  rw [if_neg h2] at hgrow
  by_cases h3 : own.isTaken (pos.add vel).x (pos.add vel).y
      (fun d _ => timeStepCheck cfg d)
  · rw [if_pos h3] at hgrow
    exact Option.noConfusion hgrow
  rw [if_neg h3] at hgrow
  have hc := Option.some.inj hgrow
  rw [hc] at h2
  exact h2 htaken

lemma gxWitC1 : gWitC1.gridX 5 = 5 := by
  show ⌊((10 : ℤ) : ℝ) * ((5 : ℝ) - 0) / 10⌋ = 5
  rw [floorEval _ 5] <;> norm_num

lemma gyWitC1 : gWitC1.gridY 5.5 = 5 := by
  show ⌊((10 : ℤ) : ℝ) * ((5.5 : ℝ) - 0) / 10⌋ = 5
  rw [floorEval _ 5] <;> norm_num

lemma distWitC1 : Real.sqrt (((⟨5, 4.9⟩ : Vec).x - (5 : ℝ)) *
    ((⟨5, 4.9⟩ : Vec).x - (5 : ℝ)) + ((⟨5, 4.9⟩ : Vec).y - (5.5 : ℝ)) *
    ((⟨5, 4.9⟩ : Vec).y - (5.5 : ℝ))) = 0.6 := by
  rw [show ((⟨5, 4.9⟩ : Vec).x - (5 : ℝ)) * ((⟨5, 4.9⟩ : Vec).x - (5 : ℝ)) +
      ((⟨5, 4.9⟩ : Vec).y - (5.5 : ℝ)) * ((⟨5, 4.9⟩ : Vec).y - (5.5 : ℝ)) =
      (0.36 : ℝ) from by norm_num]
  rw [sqrtEval 0.36 0.6] <;> norm_num

lemma notTakenWitC1 : ¬ gWitC1.isTaken 5 5.5 (fun d _ => checkDTest cfgC4 d) := by
  rintro ⟨col, hcol, row, hrow, _, _, _, _, c, hc, htk⟩
  rw [gxWitC1, gyWitC1] at hc
  fin_cases hcol <;> fin_cases hrow
  · exact Option.noConfusion hc
  · exact Option.noConfusion hc
  · exact Option.noConfusion hc
  · have hcc := Option.some.inj hc
    rw [← hcc] at htk
    obtain ⟨p, hpmem, hchk⟩ := htk
    rw [List.mem_singleton] at hpmem
    rw [hpmem] at hchk
    rw [distWitC1] at hchk
    have h2 := hchk.2
    rw [show cfgC4.dTest = 0.5 from rfl] at h2
    norm_num at h2
  · exact Option.noConfusion hc
  · exact Option.noConfusion hc
  · exact Option.noConfusion hc
  · exact Option.noConfusion hc
  · exact Option.noConfusion hc

lemma growWitC1 : growByVelocity cfgC4 gWitC1 gridC5e ⟨5, 5⟩ ⟨0, 0.5⟩ =
    some ⟨5, 5.5⟩ := by
  have ho : ¬ gWitC1.isOutside (5 : ℝ) (5.5 : ℝ) := by
    rw [LookupGrid.isOutside]
    push_neg
    norm_num [gWitC1]
  have hto : ¬ gridC5e.isTaken (5 : ℝ) (5.5 : ℝ)
      (fun d _ => timeStepCheck cfgC4 d) := isTakenEmpty gridC5e rfl 5 5.5 _
  have hcand : (⟨5, 5⟩ : Vec).add ⟨0, 0.5⟩ = ⟨5, 5.5⟩ := by
    rw [Vec.add]
    norm_num
  simp only [growByVelocity, hcand]
  rw [if_neg ho, if_neg notTakenWitC1, if_neg hto]

theorem c1_scanned_separation_witness :
    cfgC4.dTest - 1e-4 ≤ Vec.distanceTo ⟨5, 5.5⟩ ⟨5, 4.9⟩ :=
  c1_scanned_separation cfgC4 gWitC1 gridC5e ⟨5, 5⟩ ⟨0, 0.5⟩ ⟨5, 5.5⟩
    growWitC1 0 (-1) (by decide) (by decide)
    (by show (0 : ℤ) ≤ gWitC1.gridX 5 + 0; rw [gxWitC1]; norm_num)
    (by show gWitC1.gridX 5 + 0 < gWitC1.cellsCount; rw [gxWitC1]; norm_num [gWitC1])
    (by show (0 : ℤ) ≤ gWitC1.gridY 5.5 + -1; rw [gyWitC1]; norm_num)
    (by show gWitC1.gridY 5.5 + -1 < gWitC1.cellsCount; rw [gyWitC1]; norm_num [gWitC1])
    [⟨5, 4.9⟩]
    (by show cellAt gWitC1 (gWitC1.gridX 5 + 0) (gWitC1.gridY 5.5 + -1) = some [⟨5, 4.9⟩]
        rw [gxWitC1, gyWitC1]
        rw [show (5 + 0 : ℤ) = 5 from by omega, show (5 + -1 : ℤ) = 4 from by omega]
        rfl)
    ⟨5, 4.9⟩ (List.mem_singleton.mpr rfl)

lemma mkC8 : mkStreamlines protoC8 = Except.ok ⟨cfgC8, s0C8, false⟩ := by
  have h : mkStreamlines protoC8 =
      Except.ok { cfg := cfgC8
                  s0 := { state := SState.init
                          grid := LookupGrid.create ⟨0, 0, 10, 10⟩ (1 : ℝ)
                          current := Integ.create ⟨50, 50⟩ cfgC8
                          queue := []
                          emitted := []
                          seedArray := [] }
                  warnedDefaultBox := false } := by
    rw [mkStreamlines]
    norm_num [protoC8, normalizeBoundingBox, assertNumber, cfgC8]
  rw [h, gridC2_create]
  rfl

lemma occC8 : gridC2.occupyCoordinates ⟨50, 50⟩ =
    Except.error "x is out of bounds" := by
  rw [LookupGrid.occupyCoordinates]
  rw [show gridC2.assertInBounds 50 50 = Except.error "x is out of bounds" from by
    rw [LookupGrid.assertInBounds]
    rw [if_pos (Or.inr (show gridC2.bbox.left + gridC2.bboxSize < 50 from by
      norm_num [gridC2]))]]

lemma commitC8 : commitAll gridC2 [⟨50, 50⟩] = Except.error "x is out of bounds" := by
  simp only [commitAll, occC8]

lemma nextBodyC8 : nextBody cfgC8 gridC2 itC8 =
    Except.error "x is out of bounds" := by
  show (match commitAll gridC2 [⟨50, 50⟩] with
    | Except.error e => Except.error e
    | Except.ok g2 => Except.ok (itC8done, g2, true)) =
    Except.error "x is out of bounds"
  rw [commitC8]

lemma nextLoopC8 : nextLoop cfgC8 3 gridC2 itC8 =
    Except.error "x is out of bounds" := by
  show nextLoop cfgC8 (Nat.succ 2) gridC2 itC8 = _
  simp only [nextLoop, nextBodyC8]

lemma ipC8 : initProcessing cfgC8 3 s0C8 = Except.error "x is out of bounds" := by
  have hg : s0C8.grid = gridC2 := rfl
  have hc : s0C8.current = itC8 := rfl
  simp only [initProcessing, hg, hc, nextLoopC8]

lemma schedBodyC8 : schedBody cfgC8 3 s0C8 = Except.error "x is out of bounds" := by
  rw [schedBody, ipC8]
  rfl

lemma driveErr (cfg : Config) (nf n : ℕ) (s : SchedState) (e : String)
    (hnd : ¬ s.state = SState.done)
    (hsb : schedBody cfg nf s = Except.error e) :
    drive cfg nf (Nat.succ n) s = Except.error e := by
  simp only [drive, hsb, if_neg hnd]

lemma driveC8run : drive cfgC8 3 6 s0C8 = Except.error "x is out of bounds" := by
  rw [show (6 : ℕ) = Nat.succ 5 from rfl,
    driveErr cfgC8 3 5 s0C8 _ (fun hcon => SState.noConfusion hcon) schedBodyC8]

/-- C8 counterexample: the constructor never bounds-checks an explicit seed.
`protoC8` supplies the seed `(50, 50)`, far outside the `[0,10]²` box; the
built state nevertheless carries that point as the initial integrator's
point sequence, and the run then crashes committing it to the lookup grid
(`"x is out of bounds"`) — the claimed boundary containment fails for
constructor-supplied seeds. -/
theorem c8_counterexample :
    mkStreamlines protoC8 = Except.ok ⟨cfgC8, s0C8, false⟩ ∧
    resultSeedPoints (mkStreamlines protoC8) = some [⟨50, 50⟩] ∧
    gridC2.isOutside (50 : ℝ) (50 : ℝ) ∧
    drive cfgC8 3 6 s0C8 = Except.error "x is out of bounds" := by
  refine ⟨mkC8, ?_, ?_, driveC8run⟩
  · rw [mkC8]
    rfl
  · rw [LookupGrid.isOutside]
    exact Or.inr (Or.inl (show (50 : ℝ) > gridC2.bbox.left + gridC2.bbox.width
      from by norm_num [gridC2]))

lemma growInBox (cfg : Config) (grid own : LookupGrid) (pos vel c : Vec)
    (h : growByVelocity cfg grid own pos vel = some c) :
    ¬ grid.isOutside c.x c.y := by
  simp only [growByVelocity] at h
  by_cases h1 : grid.isOutside (pos.add vel).x (pos.add vel).y
  · rw [if_pos h1] at h
    exact Option.noConfusion h
  rw [if_neg h1] at h
  by_cases h2 : grid.isTaken (pos.add vel).x (pos.add vel).y
      (fun d _ => checkDTest cfg d)
  · rw [if_pos h2] at h
    exact Option.noConfusion h
  rw [if_neg h2] at h
  by_cases h3 : own.isTaken (pos.add vel).x (pos.add vel).y
      (fun d _ => timeStepCheck cfg d)
  · rw [if_pos h3] at h
    exact Option.noConfusion h
  rw [if_neg h3] at h
  rw [← Option.some.inj h]
  exact h1

lemma seedScanInBox (cfg : Config) (grid : LookupGrid) :
    ∀ (pts : List Vec) (lcs : ℤ) (sa : List Vec) (c : Vec),
      (seedScan cfg grid pts lcs sa).1 = some c →
      ¬ grid.isOutside c.x c.y := by
  intro pts
  induction pts with
  | nil =>
    intro lcs sa c h
    rw [seedScan] at h
    exact Option.noConfusion h
  | cons p rest ih =>
    intro lcs sa c h
    cases hnv : normalizedVectorField cfg p with
    | none =>
      simp only [seedScan, hnv] at h
      exact ih _ _ _ h
    | some v =>
      simp only [seedScan, hnv] at h
      split_ifs at h with hc1 hc2
      · rw [← Option.some.inj h]
        exact hc1.1
      · rw [← Option.some.inj h]
        exact hc2.1
      · exact ih _ _ _ h

/-- C8 amended: the in-box guarantee the code actually provides.  Every
point accepted by `growByVelocity` — hence every point a streamline adds
beyond its seed — is inside the bounding box, and every seed candidate
returned by the seed scan is inside the bounding box.  Only the
constructor-supplied initial seed escapes any bounds check
(`c8_counterexample`). -/
theorem c8_amended :
    (∀ (cfg : Config) (grid own : LookupGrid) (pos vel c : Vec),
        growByVelocity cfg grid own pos vel = some c →
        ¬ grid.isOutside c.x c.y) ∧
    (∀ (cfg : Config) (grid : LookupGrid) (pts : List Vec) (lcs : ℤ)
        (sa : List Vec) (c : Vec),
        (seedScan cfg grid pts lcs sa).1 = some c →
        ¬ grid.isOutside c.x c.y) :=
  ⟨growInBox, seedScanInBox⟩

theorem c8_amended_witness :
    ¬ gWitC1.isOutside (⟨5, 5.5⟩ : Vec).x (⟨5, 5.5⟩ : Vec).y :=
  c8_amended.1 cfgC4 gWitC1 gridC5e ⟨5, 5⟩ ⟨0, 0.5⟩ ⟨5, 5.5⟩ growWitC1

lemma addQueueGood (s : SchedState) (h : goodLens s) :
    goodLens (addStreamLineToQueue s) := by
  rw [addStreamLineToQueue]
  split_ifs with hlen
  · constructor
    · intro l hl
      have hl2 : l ∈ s.emitted ++ [s.current.points] := hl
      rw [List.mem_append] at hl2
      rcases hl2 with hl2 | hl2
      · exact h.1 l hl2
      · rw [List.mem_singleton] at hl2
        rw [hl2]
        omega
    · intro q hq
      have hq2 : q ∈ s.queue ++ [s.current] := hq
      rw [List.mem_append] at hq2
      rcases hq2 with hq2 | hq2
      · exact h.2 q hq2
      · rw [List.mem_singleton] at hq2
        rw [hq2]
        omega
  · exact h

lemma initProcessingGood (cfg : Config) (nf : ℕ) (s s2 : SchedState)
    (h : initProcessing cfg nf s = Except.ok s2) (hg : goodLens s) :
    goodLens s2 := by
  cases hnl : nextLoop cfg nf s.grid s.current with
  | error e =>
    simp only [initProcessing, hnl] at h
    exact Except.noConfusion h
  | ok trip =>
    obtain ⟨it2, g2, completed⟩ := trip
    simp only [initProcessing, hnl] at h
    have hgm : goodLens { s with current := it2, grid := g2 } := hg
    cases completed
    · rw [← Except.ok.inj h]
      exact hgm
    · rw [← Except.ok.inj h]
      exact addQueueGood _ hgm

lemma continueStreamlineGood (cfg : Config) (nf : ℕ) (s s2 : SchedState)
    (h : continueStreamline cfg nf s = Except.ok s2) (hg : goodLens s) :
    goodLens s2 := by
  cases hnl : nextLoop cfg nf s.grid s.current with
  | error e =>
    simp only [continueStreamline, hnl] at h
    exact Except.noConfusion h
  | ok trip =>
    obtain ⟨it2, g2, completed⟩ := trip
    simp only [continueStreamline, hnl] at h
    have hgm : goodLens { s with current := it2, grid := g2 } := hg
    cases completed
    · rw [← Except.ok.inj h]
      exact hgm
    · rw [← Except.ok.inj h]
      exact addQueueGood _ hgm

lemma processQueueGood (s : SchedState) (hg : goodLens s) :
    goodLens (processQueue s) := by
  rw [processQueue]
  split_ifs
  · exact hg
  · exact hg

lemma seedStepGood (cfg : Config) (s s2 : SchedState)
    (h : seedStreamlineStep cfg s = Except.ok s2) (hg : goodLens s) :
    goodLens s2 := by
  cases hq : s.queue with
  | nil =>
    simp only [seedStreamlineStep, hq] at h
    exact Except.noConfusion h
  | cons head rest =>
    cases ho : (seedScan cfg s.grid
        (head.points.drop (head.lastCheckedSeed + 1).toNat)
        head.lastCheckedSeed s.seedArray).1 with
    | some candidate =>
      simp only [seedStreamlineStep, hq, getNextValidSeed, ho] at h
      rw [← Except.ok.inj h]
      constructor
      · exact hg.1
      · intro q hmem
        rw [List.mem_cons] at hmem
        rcases hmem with hmem | hmem
        · rw [hmem]
          exact hg.2 head (by rw [hq]; exact List.mem_cons_self head rest)
        · exact hg.2 q (by rw [hq]; exact List.mem_cons_of_mem head hmem)
    | none =>
      simp only [seedStreamlineStep, hq, getNextValidSeed, ho] at h
      rw [← Except.ok.inj h]
      refine ⟨hg.1, fun q hmem => hg.2 q ?_⟩
      rw [hq]
      exact List.mem_cons_of_mem head hmem

lemma schedBodyGood (cfg : Config) (nf : ℕ) (s s2 : SchedState)
    (h : schedBody cfg nf s = Except.ok s2) (hg : goodLens s) :
    goodLens s2 := by
  rw [schedBody] at h
  cases h1 : (if s.state = SState.init then initProcessing cfg nf s
      else pure s) with
  | error e =>
    rw [h1] at h
    simp only [exceptBindErr] at h
    exact Except.noConfusion h
  | ok a =>
    rw [h1] at h
    simp only [exceptBindOk] at h
    have hga : goodLens a := by
      by_cases hs : s.state = SState.init
      · rw [if_pos hs] at h1
        exact initProcessingGood cfg nf s a h1 hg
      · rw [if_neg hs] at h1
        rw [← Except.ok.inj h1]
        exact hg
    cases h2 : (if a.state = SState.streamline then continueStreamline cfg nf a
        else pure a) with
    | error e =>
      rw [h2] at h
      simp only [exceptBindErr] at h
      exact Except.noConfusion h
    | ok b =>
      rw [h2] at h
      simp only [exceptBindOk] at h
      have hgb : goodLens b := by
        by_cases hs : a.state = SState.streamline
        · rw [if_pos hs] at h2
          exact continueStreamlineGood cfg nf a b h2 hga
        · rw [if_neg hs] at h2
          rw [← Except.ok.inj h2]
          exact hga
      have hgc : goodLens (if b.state = SState.processQueue then processQueue b
          else b) := by
        split_ifs
        · exact processQueueGood b hgb
        · exact hgb
      by_cases hs : (if b.state = SState.processQueue then processQueue b
          else b).state = SState.seedStreamline
      · rw [if_pos hs] at h
        exact seedStepGood cfg _ s2 h hgc
      · rw [if_neg hs] at h
        rw [← Except.ok.inj h]
        exact hgc

lemma driveGood (cfg : Config) (nf : ℕ) :
    ∀ (fuel : ℕ) (s s2 : SchedState), drive cfg nf fuel s = Except.ok s2 →
      goodLens s → goodLens s2 := by
  intro fuel
  induction fuel with
  | zero =>
    intro s s2 h hg
    rw [drive] at h
    rw [← Except.ok.inj h]
    exact hg
  | succ n ih =>
    intro s s2 h hg
    by_cases hd : s.state = SState.done
    · rw [driveDone cfg nf n s hd] at h
      rw [← Except.ok.inj h]
      exact hg
    · cases hsb : schedBody cfg nf s with
      | error e =>
        rw [driveErr cfg nf n s e hd hsb] at h
        exact Except.noConfusion h
      | ok smid =>
        rw [driveStep cfg nf n s smid hd hsb] at h
        exact ih smid s2 h (schedBodyGood cfg nf s smid hsb hg)

/-- C9: starting from a state with nothing emitted and an empty finished
queue (as the constructor builds), every successful run of the scheduler
maintains that each emitted streamline (each `onStreamlineAdded` invocation)
carries at least two points, and each finished integrator on the queue —
the only source of further seed candidates — has at least two points:
`addStreamLineToQueue` drops single-point streamlines. -/
theorem c9_min_streamline_length (cfg : Config) (nf fuel : ℕ)
    (s0 s : SchedState) (h0e : s0.emitted = []) (h0q : s0.queue = [])
    (hrun : drive cfg nf fuel s0 = Except.ok s) :
    (∀ l ∈ s.emitted, 2 ≤ l.length) ∧
      (∀ q ∈ s.queue, 2 ≤ q.points.length) := by
  have hg0 : goodLens s0 := by
    constructor
    · intro l hl
      rw [h0e] at hl
      exact absurd hl (List.not_mem_nil l)
    · intro q hq
      rw [h0q] at hq
      exact absurd hq (List.not_mem_nil q)
  exact driveGood cfg nf fuel s0 s hrun hg0

theorem c9_min_streamline_length_witness :
    (∀ l ∈ s4C1.emitted, 2 ≤ l.length) ∧
      (∀ q ∈ s4C1.queue, 2 ≤ q.points.length) :=
  c9_min_streamline_length cfgC1 3 6 s0C1 s4C1 rfl rfl driveC1run

end Streamline

